import Mathlib

/-!
Verification development for the Hierarchical Geographic Standardization
Engine of the `hailmary` repository.  The definitions below are a shallow
embedding of `src/apps/ingestor/standardization_loader.py` and
`src/apps/ingestor/fuzzy_standardizer.py` (Python 3 semantics):

* Python `dict` objects become association lists with insertion order
  preserved (`dictGet` is key lookup, `dictSet` is `d[k] = v`);
* Python strings become `String`; `.lower()` is ASCII lowering
  (`Char.toLower`), `.strip()` removes leading/trailing whitespace;
* dynamically typed record fields become `PyVal`
  (`None` / `str` / `int`); code paths that would raise (`AttributeError`
  on `x.lower()` for non-str `x`, `KeyError` on `d[k]`) return
  `Except.error`;
* the third-party fuzzy matcher `thefuzz.process.extractOne` with
  `scorer=fuzz.ratio` is modelled by `pyExtractOne`: candidate strings are
  preprocessed (non-alphanumeric chars become spaces, lowercased,
  trimmed), scored with the symmetric indel similarity
  `200 * LCS(a,b) / (|a| + |b|)` — kept as an exact fraction
  `(numerator, denominator)` scaled to 0–100 — and the first
  highest-scoring candidate with score ≥ cutoff is returned.
-/

namespace HailMary

/-! ### Python string primitives -/

/-- ASCII `str.lower` on a single string (Python's `.lower()`). -/
def pyLowerStr (s : String) : String := ⟨s.data.map Char.toLower⟩

/-- `list`-level strip: drop whitespace from both ends. -/
def listStrip (l : List Char) : List Char :=
  ((l.dropWhile Char.isWhitespace).reverse.dropWhile Char.isWhitespace).reverse

/-- Python `str.strip()`. -/
def pyStrip (s : String) : String := ⟨listStrip s.data⟩

/-- The normalization used throughout the loader: `text.lower().strip()`. -/
def pyNormalize (s : String) : String := pyStrip (pyLowerStr s)

/-- Substring test on character lists (`needle in hay` for Python `str`). -/
def isSubstrList (needle : List Char) : List Char → Bool
  | [] => needle.isEmpty
  | c :: t => needle.isPrefixOf (c :: t) || isSubstrList needle t

/-- Python `needle in hay` for strings. -/
def pyIn (needle hay : String) : Bool := isSubstrList needle.data hay.data

/-- Python `str.split(sep)` on character lists (non-overlapping,
left-to-right; `sep` is non-empty at every call site).  `acc` holds the
current chunk reversed; `fuel` is an upper bound on the number of steps
(each step consumes at least one character), making the recursion
structural so that it reduces inside the kernel. -/
def pySplitAux (sep : List Char) : Nat → List Char → List Char →
    List (List Char)
  | 0, _, acc => [acc.reverse]
  | _ + 1, [], acc => [acc.reverse]
  | fuel + 1, c :: rest, acc =>
      if sep.isPrefixOf (c :: rest) then
        acc.reverse :: pySplitAux sep fuel (rest.drop (sep.length - 1)) []
      else pySplitAux sep fuel rest (c :: acc)

/-- Python `s.split(sep)`. -/
def pySplit (s sep : String) : List String :=
  (pySplitAux sep.data s.data.length s.data []).map (⟨·⟩)

/-- Truthiness of a Python `str`-or-`None` value. -/
def truthyOpt : Option String → Bool
  | none => false
  | some s => s ≠ ""

/-! ### Python dicts as insertion-ordered association lists -/

/-- `d.get(k)` — first binding wins (keys are unique in a real dict). -/
def dictGet {α : Type} (d : List (String × α)) (k : String) : Option α :=
  (d.find? (fun p => p.1 = k)).map (·.2)

/-- `d[k] = v`: replace in place if the key exists, else append. -/
def dictSet {α : Type} : List (String × α) → String → α → List (String × α)
  | [], k, v => [(k, v)]
  | (k', v') :: t, k, v =>
      if k' = k then (k, v) :: t else (k', v') :: dictSet t k v

/-! ### The fuzzy scorer (`thefuzz` / `rapidfuzz` model) -/

/-- One row update of the longest-common-subsequence DP table.
`prev` is the row for the previous character, `left` the entry just
computed in the current row. -/
def lcsNext (c : Char) : List Char → List Nat → Nat → List Nat
  | b :: bs, p0 :: p1 :: ps, left =>
      let v := if c = b then p0 + 1 else max left p1
      v :: lcsNext c bs (p1 :: ps) v
  | _, _, _ => []

/-- Length of the longest common subsequence, by row-wise DP. -/
def llcs (a b : List Char) : Nat :=
  (a.foldl (fun prev c => 0 :: lcsNext c b prev 0)
    (List.replicate (b.length + 1) 0)).getLastD 0

/-- `fuzz.ratio` as an exact fraction scaled to 0–100:
`200·LCS/(|a|+|b|)`, and `100` when both strings are empty
(`rapidfuzz` scores two empty strings as a perfect match). -/
def fuzzRatioFrac (a b : List Char) : Nat × Nat :=
  if a.length + b.length = 0 then (100, 1)
  else (200 * llcs a b, a.length + b.length)

/-- `rapidfuzz.utils.default_process`, applied by `process.extractOne`
to the query and every choice: replace non-alphanumeric characters with
spaces, lowercase, trim. -/
def fullProcess (s : String) : String :=
  pyStrip ⟨s.data.map (fun c => if c.isAlphanum then c.toLower else ' ')⟩

/-- Score of a choice against a query under `extractOne`'s processing. -/
def choiceScore (q c : String) : Nat × Nat :=
  fuzzRatioFrac (fullProcess q).data (fullProcess c).data

/-- `score ≥ cutoff` for a fractional score. -/
def scoreGeCutoff (s : Nat × Nat) (cutoff : Nat) : Bool :=
  cutoff * s.2 ≤ s.1

/-- Strict comparison of two fractional scores. -/
def scoreLt (s t : Nat × Nat) : Bool := s.1 * t.2 < t.1 * s.2

/-- Accumulator loop of `process.extractOne`: walk the choices keeping
the first candidate of maximal score among those reaching the cutoff. -/
def extractOneAux (q : List Char) (cutoff : Nat) :
    List String → Option (String × (Nat × Nat)) → Option (String × (Nat × Nat))
  | [], best => best
  | c :: cs, best =>
      let s := fuzzRatioFrac q (fullProcess c).data
      let best' :=
        if scoreGeCutoff s cutoff then
          match best with
          | none => some (c, s)
          | some (b, bs) => if scoreLt bs s then some (c, s) else some (b, bs)
        else best
      extractOneAux q cutoff cs best'

/-- `thefuzz.process.extractOne(query, choices, scorer=fuzz.ratio,
score_cutoff=cutoff)`. -/
def pyExtractOne (query : String) (choices : List String) (cutoff : Nat) :
    Option (String × (Nat × Nat)) :=
  extractOneAux (fullProcess query).data cutoff choices none

deriving instance DecidableEq for Except

/-- Did a fallible computation succeed? -/
def exceptIsOk {e a : Type} : Except e a → Bool
  | .ok _ => true
  | .error _ => false

/-! ### Reference data model (`standardization_loader.py`) -/

/-- Entry of `country_mappings` (loader lines 75–81). -/
structure CountryData where
  id : Nat
  iso3 : String
  iso2 : String
  display : String
deriving DecidableEq, Repr

/-- Entry of `state_mappings` (loader lines 95–102). -/
structure StateData where
  id : Nat
  code : String
  iso3166_2 : String
  display : String
  country : String
deriving DecidableEq, Repr

/-- `FullCityData` dataclass (loader lines 12–24); the unused
`latitude`/`longitude` floats are omitted. -/
structure FullCityData where
  code : String
  display : String
  country : String
  state : String
  country_id : Nat
  state_id : Nat
  country_name : String
  state_name : String
  population : Nat
deriving DecidableEq, Repr

/-- `FullCitiesDataLoader`'s three lookup dicts. -/
structure FullCitiesDataLoader where
  country_mappings : List (String × CountryData)
  state_mappings : List (String × StateData)
  city_mappings : List (String × FullCityData)
deriving DecidableEq, Repr

namespace FullCitiesDataLoader

/-- `get_country_code` (lines 201–208): normalize, dict lookup, `iso3`. -/
def get_country_code (L : FullCitiesDataLoader) (country_name : String) :
    Option String :=
  if country_name = "" then none
  else (dictGet L.country_mappings (pyNormalize country_name)).map (·.iso3)

/-- `get_country_display` (lines 210–217). -/
def get_country_display (L : FullCitiesDataLoader) (country_name : String) :
    Option String :=
  if country_name = "" then none
  else (dictGet L.country_mappings (pyNormalize country_name)).map (·.display)

/-- `get_state_code` (lines 219–226). -/
def get_state_code (L : FullCitiesDataLoader) (state_name : String) :
    Option String :=
  if state_name = "" then none
  else (dictGet L.state_mappings (pyNormalize state_name)).map (·.code)

/-- `get_state_display` (lines 228–235). -/
def get_state_display (L : FullCitiesDataLoader) (state_name : String) :
    Option String :=
  if state_name = "" then none
  else (dictGet L.state_mappings (pyNormalize state_name)).map (·.display)

/-- `get_city_info` (lines 255–261). -/
def get_city_info (L : FullCitiesDataLoader) (city_name : String) :
    Option FullCityData :=
  if city_name = "" then none
  else dictGet L.city_mappings (pyNormalize city_name)

/-- `get_state_by_name` (lines 370–376): same normalization, whole entry. -/
def get_state_by_name (L : FullCitiesDataLoader) (state_name : String) :
    Option StateData :=
  if state_name = "" then none
  else dictGet L.state_mappings (pyNormalize state_name)

/-- `get_state_iso3166_2_by_id` (lines 329–338): `0` is falsy, then a
linear scan of `state_mappings.values()` in insertion order. -/
def get_state_iso3166_2_by_id (L : FullCitiesDataLoader) (state_id : Nat) :
    Option String :=
  if state_id = 0 then none
  else (L.state_mappings.find? (fun p => p.2.id = state_id)).map (·.2.iso3166_2)

/-! `parse_city_from_address` (lines 394–424).  The source also declares a
`suffixes_to_remove` list that it never reads; it has no behavioural
counterpart here. -/

/-- The address-type prefixes stripped from the front (line 404). -/
def prefixes_to_remove : List String :=
  ["address:", "addr:", "street:", "st:", "avenue:", "ave:", "road:", "rd:",
   "boulevard:", "blvd:"]

/-- The split separators tried in order (line 413). -/
def separators : List String := [",", ";", "\n", "\t", "  "]

/-- The prefix-stripping loop (lines 407–410): each prefix is tested once,
in order, against the evolving string. -/
def stripPrefixes (s : String) : String :=
  prefixes_to_remove.foldl
    (fun acc p =>
      if p.data.isPrefixOf acc.data then pyStrip ⟨acc.data.drop p.length⟩
      else acc)
    s

/-- Inner scan (lines 418–422): walk the candidate parts and return the
first that is >2 chars, alphabetic, and resolves as a city or state. -/
def scanParts (L : FullCitiesDataLoader) : List String → Option String
  | [] => none
  | part :: rest =>
      if part.length > 2 && part.data.all Char.isAlpha &&
          ((L.get_city_info part).isSome || (L.get_state_by_name part).isSome)
      then some part
      else scanParts L rest

/-- Python `parts[-3:]`. -/
def lastN {α : Type} (l : List α) (n : Nat) : List α := l.drop (l.length - n)

/-- Separator loop (lines 414–422): for each separator occurring in the
string, split, strip the parts, and scan the last three in reverse. -/
def trySeparators (L : FullCitiesDataLoader) (cleaned : String) :
    List String → Option String
  | [] => none
  | sep :: rest =>
      if pyIn sep cleaned then
        let parts := (pySplit cleaned sep).map pyStrip
        match scanParts L (lastN parts 3).reverse with
        | some p => some p
        | none => trySeparators L cleaned rest
      else trySeparators L cleaned rest

/-- `parse_city_from_address` (lines 394–424). -/
def parse_city_from_address (L : FullCitiesDataLoader) (address : String) :
    Option String :=
  if address = "" then none
  else trySeparators L (stripPrefixes (pyNormalize address)) separators

end FullCitiesDataLoader

/-! ### Snapshot loading (`load_all_data`, lines 46–136)

A snapshot file on disk is either absent (`os.path.exists` is false — the
loader prints a warning and returns, leaving the table empty), present
but corrupt (`pickle.load` raises, which propagates out of `__init__`),
or present with its decoded table contents. -/

/-- State of one snapshot file as seen by the loader. -/
inductive SnapshotFile (α : Type) where
  | absent
  | corrupt
  | good (data : α)
deriving DecidableEq, Repr

/-- Did reading this file raise? -/
def SnapshotFile.isCorrupt {α : Type} : SnapshotFile α → Bool
  | .corrupt => true
  | _ => false

/-- Errors that escape `FullCitiesDataLoader.__init__`. -/
inductive LoadError where
  | unpickle
deriving DecidableEq, Repr

namespace FullCitiesDataLoader

/-- `load_countries` (lines 63–81): missing file → warning and empty
table; corrupt file → raise; otherwise rebuild the dict entry by entry. -/
def load_countries (f : SnapshotFile (List (String × CountryData))) :
    Except LoadError (List (String × CountryData)) :=
  match f with
  | .absent => .ok []
  | .corrupt => .error .unpickle
  | .good data =>
      .ok (data.foldl
        (fun m p => dictSet m p.1
          ⟨p.2.id, p.2.iso3, p.2.iso2, p.2.display⟩) [])

/-- `load_states` (lines 83–102). -/
def load_states (f : SnapshotFile (List (String × StateData))) :
    Except LoadError (List (String × StateData)) :=
  match f with
  | .absent => .ok []
  | .corrupt => .error .unpickle
  | .good data =>
      .ok (data.foldl
        (fun m p => dictSet m p.1
          ⟨p.2.id, p.2.code, p.2.iso3166_2, p.2.display, p.2.country⟩) [])

/-- `load_all_cities` (lines 104–136). -/
def load_all_cities (f : SnapshotFile (List (String × FullCityData))) :
    Except LoadError (List (String × FullCityData)) :=
  match f with
  | .absent => .ok []
  | .corrupt => .error .unpickle
  | .good data =>
      .ok (data.foldl
        (fun m p => dictSet m p.1
          ⟨p.2.code, p.2.display, p.2.country, p.2.state, p.2.country_id,
           p.2.state_id, p.2.country_name, p.2.state_name, p.2.population⟩) [])

/-- The static country alias table (lines 141–181). -/
def country_variations : List (String × String) :=
  [("us", "united states"), ("usa", "united states"),
   ("uk", "united kingdom"), ("gb", "united kingdom"),
   ("can", "canada"), ("aus", "australia"), ("de", "germany"),
   ("fr", "france"), ("jp", "japan"), ("cn", "china"), ("in", "india"),
   ("br", "brazil"), ("mx", "mexico"), ("sg", "singapore"),
   ("my", "malaysia"), ("th", "thailand"), ("kr", "south korea"),
   ("it", "italy"), ("es", "spain"), ("nl", "netherlands"),
   ("se", "sweden"), ("no", "norway"), ("dk", "denmark"),
   ("fi", "finland"), ("ch", "switzerland"), ("at", "austria"),
   ("be", "belgium"), ("ie", "ireland"), ("nz", "new zealand"),
   ("za", "south africa"), ("eg", "egypt"), ("il", "israel"),
   ("tr", "turkey"), ("ru", "russia"), ("pl", "poland"),
   ("cz", "czech republic"), ("hu", "hungary"), ("pt", "portugal"),
   ("gr", "greece")]

/-- The static US state alias table (lines 188–195). -/
def us_state_variations : List (String × String) :=
  [("cali", "california"), ("calif", "california"), ("ny", "new york"),
   ("dc", "district of columbia"), ("washington dc", "district of columbia"),
   ("d.c.", "district of columbia")]

/-- One alias pass: `mappings[variation] = mappings[standard]` whenever
the canonical key is present. -/
def applyVariations {α : Type} (vars : List (String × String))
    (m0 : List (String × α)) : List (String × α) :=
  vars.foldl
    (fun m p => match dictGet m p.2 with
      | some d => dictSet m p.1 d
      | none => m) m0

/-- `_add_common_variations` (lines 138–199): duplicate canonical entries
under alias keys when the canonical key is present. -/
def add_common_variations (L : FullCitiesDataLoader) : FullCitiesDataLoader :=
  { country_mappings := applyVariations country_variations L.country_mappings
    state_mappings := applyVariations us_state_variations L.state_mappings
    city_mappings := L.city_mappings }

/-- `__init__` / `load_all_data` (lines 32–61): load the three tables in
order, then add the alias variations.  Any raise aborts construction. -/
def load (cf : SnapshotFile (List (String × CountryData)))
    (sf : SnapshotFile (List (String × StateData)))
    (cif : SnapshotFile (List (String × FullCityData))) :
    Except LoadError FullCitiesDataLoader :=
  match load_countries cf with
  | .error e => .error e
  | .ok cm =>
    match load_states sf with
    | .error e => .error e
    | .ok sm =>
      match load_all_cities cif with
      | .error e => .error e
      | .ok im => .ok (add_common_variations ⟨cm, sm, im⟩)

end FullCitiesDataLoader

/-! ### Dynamically typed record fields (`fuzzy_standardizer.py`) -/

/-- A Python value appearing in a customer-record field: absent/`None`,
text, or a non-text value (represented by `int`). -/
inductive PyVal where
  | vNone
  | vStr (s : String)
  | vInt (n : Int)
deriving DecidableEq, Repr

/-- Python truthiness of a field value. -/
def PyVal.truthy : PyVal → Bool
  | .vNone => false
  | .vStr s => s ≠ ""
  | .vInt n => n ≠ 0

/-- The value is text or absent (never raises on `.lower()`). -/
def PyVal.textOrNone : PyVal → Bool
  | .vInt _ => false
  | _ => true

/-- Exceptions that can escape `standardize_customer_data`. -/
inductive PyErr where
  /-- `x.lower()` on a truthy non-`str` value. -/
  | attributeError
  /-- `d[k]` on a missing key. -/
  | keyError
deriving DecidableEq, Repr

/-- A customer record: the four free-text input fields plus the six
augmented output keys (`None`-able strings). -/
structure CustomerData where
  city : PyVal
  country : PyVal
  state : PyVal
  address : PyVal
  cityCode : Option String := none
  cityDisplay : Option String := none
  countryCode : Option String := none
  countryDisplay : Option String := none
  stateCode : Option String := none
  stateDisplay : Option String := none
deriving DecidableEq, Repr

/-- `FuzzyStandardizer`: the loader, the three thresholds, and the lookup
lists/dicts built by `_build_fuzzy_lookup_lists`. -/
structure FuzzyStandardizer where
  loader : FullCitiesDataLoader
  country_threshold : Nat
  state_threshold : Nat
  city_threshold : Nat
  country_names : List String
  country_mapping : List (String × CountryData)
  state_names : List String
  state_mapping : List (String × StateData)
  city_names : List String
  city_mapping : List (String × FullCityData)
deriving DecidableEq, Repr

namespace FuzzyStandardizer

/-- `max_cities` (line 75). -/
def max_cities : Nat := 50000

/-- `__init__` + `_build_fuzzy_lookup_lists` (lines 18–85): copy the
loader's dicts into name lists and mapping dicts, capping the city list
at `max_cities` entries in iteration order.  The thresholds default to
85/80/75 as in the source signature. -/
def init (loader : FullCitiesDataLoader) (country_threshold : Nat := 85)
    (state_threshold : Nat := 80) (city_threshold : Nat := 75) :
    FuzzyStandardizer :=
  { loader := loader
    country_threshold := country_threshold
    state_threshold := state_threshold
    city_threshold := city_threshold
    country_names := loader.country_mappings.map (·.1)
    country_mapping := loader.country_mappings
    state_names := loader.state_mappings.map (·.1)
    state_mapping := loader.state_mappings
    city_names := (loader.city_mappings.take max_cities).map (·.1)
    city_mapping := loader.city_mappings.take max_cities }

/-- Shared tail of `_get_city_info_fuzzy` (lines 183–189): the
state-misclassification probe returns `None` either way. -/
def cityMissTail (fs : FuzzyStandardizer) (city_name : String) :
    Except PyErr (Option FullCityData) :=
  match fs.loader.get_state_by_name city_name with
  | some _ => .ok none
  | none => .ok none

/-- `_get_city_info_fuzzy` (lines 148–189): exact lookup, then fuzzy
matching with the country-hint filter, then the misclassification probe.
A truthy non-text argument raises at `.lower()`. -/
def _get_city_info_fuzzy (fs : FuzzyStandardizer)
    (city_name country_hint : PyVal) : Except PyErr (Option FullCityData) :=
  if ¬ city_name.truthy then .ok none
  else match city_name with
  | .vStr s =>
      match fs.loader.get_city_info s with
      | some ci => .ok (some ci)
      | none =>
        match pyExtractOne (pyNormalize s) fs.city_names fs.city_threshold with
        | some (matched_name, _score) =>
          match fs.loader.get_city_info matched_name with
          | some ci =>
            if country_hint.truthy && ci.country_name ≠ "" then
              match country_hint with
              | .vStr h =>
                  if pyIn (pyLowerStr h) (pyLowerStr ci.country_name) ||
                      pyIn (pyLowerStr ci.country_name) (pyLowerStr h)
                  then .ok (some ci)
                  else fs.cityMissTail s
              | _ => .error .attributeError
            else .ok (some ci)
          | none => fs.cityMissTail s
        | none => fs.cityMissTail s
  | _ => .error .attributeError

/-- Country fallback from a resolved city (lines 219–228): the city
record's denormalized ISO2 `country` and `country_name`, if truthy. -/
def countryFromCity : Option FullCityData → Option String × Option String
  | some ci =>
      if ci.country ≠ "" && ci.country_name ≠ "" then
        (some ci.country, some ci.country_name)
      else (none, none)
  | none => (none, none)

/-- `_standardize_country_with_fuzzy_fallback` (lines 191–228). -/
def _standardize_country (fs : FuzzyStandardizer) (country_name : PyVal)
    (city_info : Option FullCityData) :
    Except PyErr (Option String × Option String) :=
  if country_name.truthy then
    match country_name with
    | .vStr s =>
        let country_code := fs.loader.get_country_code s
        let country_display := fs.loader.get_country_display s
        if truthyOpt country_code && truthyOpt country_display then
          .ok (country_code, country_display)
        else
          match pyExtractOne (pyNormalize s) fs.country_names
              fs.country_threshold with
          | some (matched_name, _score) =>
            match dictGet fs.country_mapping matched_name with
            | some cdata => .ok (some cdata.iso3, some cdata.display)
            | none => .error .keyError
          | none => .ok (countryFromCity city_info)
    | _ => .error .attributeError
  else .ok (countryFromCity city_info)

/-- State fallback from a resolved city (lines 258–268): the iso3166-2
code looked up by the city's `state_id`, the city's own `state_name`. -/
def stateFromCity (L : FullCitiesDataLoader) :
    Option FullCityData → Option String × Option String
  | some ci =>
      if ci.state_id ≠ 0 then
        let state_code := L.get_state_iso3166_2_by_id ci.state_id
        if truthyOpt state_code && ci.state_name ≠ "" then
          (state_code, some ci.state_name)
        else (none, none)
      else (none, none)
  | none => (none, none)

/-- `_standardize_state_with_fuzzy_fallback` (lines 230–268). -/
def _standardize_state (fs : FuzzyStandardizer) (state_name : PyVal)
    (city_info : Option FullCityData) :
    Except PyErr (Option String × Option String) :=
  if state_name.truthy then
    match state_name with
    | .vStr s =>
        let state_code := fs.loader.get_state_code s
        let state_display := fs.loader.get_state_display s
        if truthyOpt state_code && truthyOpt state_display then
          .ok (state_code, state_display)
        else
          match pyExtractOne (pyNormalize s) fs.state_names
              fs.state_threshold with
          | some (matched_name, _score) =>
            match dictGet fs.state_mapping matched_name with
            | some sdata => .ok (some sdata.code, some sdata.display)
            | none => .error .keyError
          | none => .ok (stateFromCity fs.loader city_info)
    | _ => .error .attributeError
  else .ok (stateFromCity fs.loader city_info)

/-- `get_state_by_name` applied to a record field (step-1 misclassification
probe, line 106): `None`/falsy skips, truthy non-text raises. -/
def getStateByNameV (L : FullCitiesDataLoader) (v : PyVal) :
    Except PyErr (Option StateData) :=
  if ¬ v.truthy then .ok none
  else match v with
  | .vStr s => .ok (L.get_state_by_name s)
  | _ => .error .attributeError

/-- The address-extraction retry inside step 1 (lines 113–128, the city
lookup part): parse a candidate token from the address and retry city
resolution on it.  Factored out so congruence lemmas can talk about this
block's outcome in isolation. -/
def addrResolve (fs : FuzzyStandardizer) (address country_hint : PyVal) :
    Except PyErr (Option FullCityData) :=
  if address.truthy then
    match address with
    | .vStr a =>
      match fs.loader.parse_city_from_address a with
      | some extracted =>
          fs._get_city_info_fuzzy (.vStr extracted) country_hint
      | none => .ok none
    | _ => .error .attributeError
  else .ok none

/-- Step 1 of `standardize_customer_data` (lines 91–128): resolve the
city; on a miss run the misclassification probe and then the
address-extraction fallback. Returns the resolved city (if any) together
with the record as mutated so far. -/
def step1 (fs : FuzzyStandardizer) (cd : CustomerData) :
    Except PyErr (Option FullCityData × CustomerData) :=
  if cd.city.truthy then
    match fs._get_city_info_fuzzy cd.city cd.country with
    | .error e => .error e
    | .ok (some ci) =>
        .ok (some ci,
          { cd with cityCode := some ci.code, cityDisplay := some ci.display })
    | .ok none =>
      match getStateByNameV fs.loader cd.city with
      | .error e => .error e
      | .ok (some st) =>
          .ok (none,
            { cd with stateCode := some st.iso3166_2,
                      stateDisplay := some st.display })
      | .ok none =>
        match fs.addrResolve cd.address cd.country with
        | .error e => .error e
        | .ok (some ci) =>
            .ok (some ci,
              { cd with cityCode := some ci.code,
                        cityDisplay := some ci.display })
        | .ok none => .ok (none, cd)
  else .ok (none, cd)

/-- Steps 2 and 3 of `standardize_customer_data` (lines 130–146): the
country stage then the state stage, each writing its code/display pair
only when both are truthy. -/
def stages23 (fs : FuzzyStandardizer) (city_info : Option FullCityData)
    (cd1 : CustomerData) : Except PyErr CustomerData :=
  match fs._standardize_country cd1.country city_info with
  | .error e => .error e
  | .ok (country_code, country_display) =>
    let cd2 :=
      if truthyOpt country_code && truthyOpt country_display then
        { cd1 with countryCode := country_code,
                   countryDisplay := country_display }
      else cd1
    match fs._standardize_state cd2.state city_info with
    | .error e => .error e
    | .ok (state_code, state_display) =>
      .ok (if truthyOpt state_code && truthyOpt state_display then
            { cd2 with stateCode := state_code,
                       stateDisplay := state_display }
           else cd2)

/-- `standardize_customer_data` (lines 87–146): city stage, then country
stage, then state stage. -/
def standardize_customer_data (fs : FuzzyStandardizer) (cd : CustomerData) :
    Except PyErr CustomerData :=
  match fs.step1 cd with
  | .error e => .error e
  | .ok (city_info, cd1) => fs.stages23 city_info cd1

end FuzzyStandardizer

/-! ### A small concrete reference store for witnesses and
counterexamples.  It mirrors the snapshot's shape: normalized-name keys,
denormalized city geography (`country` is the ISO2 code), states keyed by
id — including a city literally named "California" (the real dataset's
California, Maryland) whose state is not among the loaded states. -/

/-- Austin, Texas, US (denormalized city record). -/
def austinCity : FullCityData :=
  ⟨"austin", "Austin", "US", "TX", 1, 11, "United States", "Texas", 961855⟩

/-- Rio de Janeiro, RJ, Brazil. -/
def rioCity : FullCityData :=
  ⟨"rio-de-janeiro", "Rio de Janeiro", "BR", "RJ", 2, 12, "Brazil",
   "Rio de Janeiro", 6748000⟩

/-- California, Maryland, US — a city whose name is also a state name;
its state (id 13) is deliberately not among the loaded states. -/
def californiaMdCity : FullCityData :=
  ⟨"california", "California", "US", "MD", 1, 13, "United States",
   "Maryland", 11857⟩

/-- Floridia, Sicily, Italy — a real city one edit away from the state
name "Florida"; its state (id 15) and country are not in the demo
country/state tables. -/
def floridiaCity : FullCityData :=
  ⟨"floridia", "Floridia", "IT", "SR", 4, 15, "Italy", "Sicily", 22000⟩

/-- Concrete loader used by witnesses/counterexamples. -/
def demoLoader : FullCitiesDataLoader :=
  { country_mappings :=
      [("united states", ⟨1, "USA", "US", "United States"⟩),
       ("brazil", ⟨2, "BRA", "BR", "Brazil"⟩),
       ("canada", ⟨3, "CAN", "CA", "Canada"⟩)]
    state_mappings :=
      [("california", ⟨10, "CA", "US-CA", "California", "US"⟩),
       ("texas", ⟨11, "TX", "US-TX", "Texas", "US"⟩),
       ("rio de janeiro", ⟨12, "RJ", "BR-RJ", "Rio de Janeiro", "BR"⟩),
       ("florida", ⟨14, "FL", "US-FL", "Florida", "US"⟩)]
    city_mappings :=
      [("austin", austinCity),
       ("rio de janeiro", rioCity),
       ("california", californiaMdCity),
       ("floridia", floridiaCity)] }

/-- The standardizer over `demoLoader`, with the default thresholds. -/
def demoFS : FuzzyStandardizer := FuzzyStandardizer.init demoLoader

/-- The six augmented output fields of a record. -/
structure GeoOutputs where
  cityCode : Option String
  cityDisplay : Option String
  countryCode : Option String
  countryDisplay : Option String
  stateCode : Option String
  stateDisplay : Option String
deriving DecidableEq, Repr

/-- Projection of a standardization result onto the six augmented output
fields (the record also carries its original input fields, so "handled as
if absent" is a statement about these outputs). -/
def geoOut : Except PyErr CustomerData → Option GeoOutputs
  | .error _ => none
  | .ok cd => some ⟨cd.cityCode, cd.cityDisplay, cd.countryCode,
      cd.countryDisplay, cd.stateCode, cd.stateDisplay⟩

/-- stateCode of a standardization result (`none` when it raised). -/
def outStateCode (r : Except PyErr CustomerData) : Option (Option String) :=
  r.toOption.map (·.stateCode)

/-- stateDisplay of a standardization result. -/
def outStateDisplay (r : Except PyErr CustomerData) : Option (Option String) :=
  r.toOption.map (·.stateDisplay)

/-- countryCode of a standardization result. -/
def outCountryCode (r : Except PyErr CustomerData) : Option (Option String) :=
  r.toOption.map (·.countryCode)

/-- countryDisplay of a standardization result. -/
def outCountryDisplay (r : Except PyErr CustomerData) :
    Option (Option String) :=
  r.toOption.map (·.countryDisplay)

/-- cityCode of a standardization result. -/
def outCityCode (r : Except PyErr CustomerData) : Option (Option String) :=
  r.toOption.map (·.cityCode)

/-- cityDisplay of a standardization result. -/
def outCityDisplay (r : Except PyErr CustomerData) : Option (Option String) :=
  r.toOption.map (·.cityDisplay)

/-- Equality of the six augmented output fields of two records (they may
differ in their original input fields). -/
def OutEq (r r' : CustomerData) : Prop :=
  r.cityCode = r'.cityCode ∧ r.cityDisplay = r'.cityDisplay ∧
  r.countryCode = r'.countryCode ∧ r.countryDisplay = r'.countryDisplay ∧
  r.stateCode = r'.stateCode ∧ r.stateDisplay = r'.stateDisplay

/-- All four geographic input fields are text or absent. -/
def allTextOrNone (cd : CustomerData) : Bool :=
  cd.city.textOrNone && cd.country.textOrNone && cd.state.textOrNone &&
    cd.address.textOrNone

/-! ## Helper lemmas -/

theorem charOfNat_toNat {n : Nat} (h : n < 0xd800) :
    (Char.ofNat n).toNat = n := by
  rw [Char.ofNat, dif_pos (Or.inl h)]
  rfl

theorem charToLower_idem (c : Char) : c.toLower.toLower = c.toLower := by
  unfold Char.toLower
  by_cases h : c.toNat ≥ 65 ∧ c.toNat ≤ 90
  · rw [if_pos h]
    have ht : (Char.ofNat (c.toNat + 32)).toNat = c.toNat + 32 :=
      charOfNat_toNat (by omega)
    rw [if_neg (by rw [ht]; omega)]
  · rw [if_neg h, if_neg h]

theorem charNotWs (c : Char) (h32 : c.toNat ≠ 32) (h9 : c.toNat ≠ 9)
    (h13 : c.toNat ≠ 13) (h10 : c.toNat ≠ 10) : c.isWhitespace = false := by
  unfold Char.isWhitespace
  simp only [Bool.or_eq_false_iff, decide_eq_false_iff_not]
  exact ⟨⟨⟨fun hc => h32 (by rw [hc]; rfl), fun hc => h9 (by rw [hc]; rfl)⟩,
    fun hc => h13 (by rw [hc]; rfl)⟩, fun hc => h10 (by rw [hc]; rfl)⟩

theorem charToLower_isWhitespace (c : Char) :
    c.toLower.isWhitespace = c.isWhitespace := by
  unfold Char.toLower
  by_cases h : c.toNat ≥ 65 ∧ c.toNat ≤ 90
  · rw [if_pos h]
    have ht : (Char.ofNat (c.toNat + 32)).toNat = c.toNat + 32 :=
      charOfNat_toNat (by omega)
    rw [charNotWs _ (by rw [ht]; omega) (by rw [ht]; omega) (by rw [ht]; omega)
          (by rw [ht]; omega),
        charNotWs _ (by omega) (by omega) (by omega) (by omega)]
  · rw [if_neg h]

theorem dropWhile_idem {p : Char → Bool} (l : List Char) :
    (l.dropWhile p).dropWhile p = l.dropWhile p := by
  induction l with
  | nil => rfl
  | cons a t ih =>
      by_cases h : p a
      · rw [List.dropWhile_cons_of_pos h]; exact ih
      · rw [List.dropWhile_cons_of_neg h, List.dropWhile_cons_of_neg h]

theorem dropWhile_pres {p : Char → Bool} :
    ∀ {l l' : List Char}, List.dropWhile p l = l → l' <+: l →
      List.dropWhile p l' = l'
  | _, [], _, _ => rfl
  | l, a :: t, hl, hp => by
      obtain ⟨rest, hrest⟩ := hp
      by_cases h : p a
      · exfalso
        subst hrest
        rw [List.cons_append, List.dropWhile_cons_of_pos h] at hl
        have hle : (List.dropWhile p (t ++ rest)).length ≤ (t ++ rest).length :=
          (List.dropWhile_sublist _).length_le
        rw [hl] at hle
        simp at hle
      · exact List.dropWhile_cons_of_neg h

theorem listStrip_idem (l : List Char) :
    listStrip (listStrip l) = listStrip l := by
  unfold listStrip
  have hdl1 : (l.dropWhile Char.isWhitespace).dropWhile Char.isWhitespace =
      l.dropWhile Char.isWhitespace := dropWhile_idem l
  set l1 := l.dropWhile Char.isWhitespace with hl1
  set r := l1.reverse.dropWhile Char.isWhitespace with hr
  have hdr : r.dropWhile Char.isWhitespace = r := by
    rw [hr]; exact dropWhile_idem l1.reverse
  have hpr : r.reverse <+: l1 := by
    rw [← List.reverse_reverse l1]
    exact List.reverse_prefix.mpr (hr ▸ List.dropWhile_suffix _)
  rw [dropWhile_pres hdl1 hpr, List.reverse_reverse, hdr]

theorem map_toLower_idem (l : List Char) :
    (l.map Char.toLower).map Char.toLower = l.map Char.toLower := by
  rw [List.map_map]
  exact List.map_congr_left (fun x _ => charToLower_idem x)

theorem strip_map_toLower (l : List Char) :
    listStrip (l.map Char.toLower) = (listStrip l).map Char.toLower := by
  have hws : (Char.isWhitespace ∘ Char.toLower) = Char.isWhitespace :=
    funext charToLower_isWhitespace
  unfold listStrip
  rw [List.dropWhile_map, hws, ← List.map_reverse, List.dropWhile_map, hws,
    ← List.map_reverse]

theorem pyNormalize_idem (s : String) :
    pyNormalize (pyNormalize s) = pyNormalize s := by
  show (⟨listStrip ((listStrip (s.data.map Char.toLower)).map
    Char.toLower)⟩ : String) = _
  rw [strip_map_toLower, listStrip_idem, ← strip_map_toLower, map_toLower_idem]
  rfl

/-! ## Claims -/

/-- Claim C8 (confirmed): for all text `T`, exact lookup of `T` equals
exact lookup of `trim(lower(T))` — normalizing the input before lookup
never changes the lookup result, for each of the country, state, and
city exact lookups.  The hypotheses record that the reference tables
contain no entry keyed by the empty string (per §4.2 of the spec, lookup
of empty input must return nothing). -/
theorem exactLookup_norm_idem (L : FullCitiesDataLoader) (T : String)
    (hc : dictGet L.country_mappings "" = none)
    (hs : dictGet L.state_mappings "" = none)
    (hci : dictGet L.city_mappings "" = none) :
    L.get_country_code T = L.get_country_code (pyNormalize T) ∧
    L.get_state_code T = L.get_state_code (pyNormalize T) ∧
    L.get_city_info T = L.get_city_info (pyNormalize T) := by
  unfold FullCitiesDataLoader.get_country_code FullCitiesDataLoader.get_state_code
    FullCitiesDataLoader.get_city_info
  by_cases hT : T = ""
  · subst hT
    exact ⟨rfl, rfl, rfl⟩
  · rw [if_neg hT, if_neg hT, if_neg hT]
    by_cases hN : pyNormalize T = ""
    · rw [if_pos hN, if_pos hN, if_pos hN, hN, hc, hs, hci]
      exact ⟨rfl, rfl, rfl⟩
    · rw [if_neg hN, if_neg hN, if_neg hN, pyNormalize_idem]
      exact ⟨rfl, rfl, rfl⟩

/-- Witness for C8 at a concrete loader and un-normalized input. -/
theorem exactLookup_norm_idem_witness :
    demoLoader.get_country_code "  United States " =
      demoLoader.get_country_code (pyNormalize "  United States ") ∧
    demoLoader.get_state_code "  United States " =
      demoLoader.get_state_code (pyNormalize "  United States ") ∧
    demoLoader.get_city_info "  United States " =
      demoLoader.get_city_info (pyNormalize "  United States ") :=
  exactLookup_norm_idem demoLoader "  United States "
    (by decide) (by decide) (by decide)


theorem fuzzRatioFrac_den_pos (a b : List Char) : 0 < (fuzzRatioFrac a b).2 := by
  unfold fuzzRatioFrac
  split
  · exact Nat.one_pos
  · next h => exact Nat.pos_of_ne_zero h

theorem fracLeTrans {a1 a2 b1 b2 c1 c2 : Nat} (hb2 : 0 < b2)
    (h1 : a1 * b2 ≤ b1 * a2) (h2 : b1 * c2 ≤ c1 * b2) :
    a1 * c2 ≤ c1 * a2 := by
  apply Nat.le_of_mul_le_mul_right ?_ hb2
  calc a1 * c2 * b2 = a1 * b2 * c2 := by ring
    _ ≤ b1 * a2 * c2 := Nat.mul_le_mul_right c2 h1
    _ = b1 * c2 * a2 := by ring
    _ ≤ c1 * b2 * a2 := Nat.mul_le_mul_right a2 h2
    _ = c1 * a2 * b2 := by ring

theorem fracLtLeTrans {a1 a2 b1 b2 c1 c2 : Nat} (hb2 : 0 < b2)
    (h1 : a1 * b2 < b1 * a2) (h2 : b1 * c2 ≤ c1 * b2) :
    a1 * c2 ≤ c1 * a2 := fracLeTrans hb2 (Nat.le_of_lt h1) h2

theorem extractOneAux_some (q : List Char) (t : Nat) :
    ∀ (cs : List String) (acc : Option (String × (Nat × Nat)))
      (c : String) (s : Nat × Nat),
    extractOneAux q t cs acc = some (c, s) →
    (∀ b bs, acc = some (b, bs) → scoreGeCutoff bs t = true) →
    scoreGeCutoff s t = true ∧
      (acc = some (c, s) ∨
        (c ∈ cs ∧ s = fuzzRatioFrac q (fullProcess c).data)) := by
  intro cs
  induction cs with
  | nil =>
      intro acc c s hres hacc
      simp only [extractOneAux] at hres
      exact ⟨hacc c s hres, Or.inl hres⟩
  | cons c0 cs' ih =>
      intro acc c s hres hacc
      simp only [extractOneAux] at hres
      by_cases hk : scoreGeCutoff (fuzzRatioFrac q (fullProcess c0).data) t
      · rw [if_pos hk] at hres
        cases acc with
        | none =>
            simp only [] at hres
            rcases ih _ c s hres
              (by intro b bs hbs
                  injection hbs with h1
                  injection h1 with h1 h2
                  subst h1; subst h2; exact hk) with ⟨h1, h2 | h3⟩
            · injection h2 with h2
              injection h2 with h2a h2b
              subst h2a
              exact ⟨h1, Or.inr ⟨List.mem_cons_self _ _, h2b.symm⟩⟩
            · exact ⟨h1, Or.inr ⟨List.mem_cons_of_mem _ h3.1, h3.2⟩⟩
        | some p =>
            rcases p with ⟨b, bs⟩
            simp only [] at hres
            by_cases hlt : scoreLt bs (fuzzRatioFrac q (fullProcess c0).data)
            · rw [if_pos hlt] at hres
              rcases ih _ c s hres
                (by intro b' bs' hbs'
                    injection hbs' with h1
                    injection h1 with h1 h2
                    subst h1; subst h2; exact hk) with ⟨h1, h2 | h3⟩
              · injection h2 with h2
                injection h2 with h2a h2b
                subst h2a
                exact ⟨h1, Or.inr ⟨List.mem_cons_self _ _, h2b.symm⟩⟩
              · exact ⟨h1, Or.inr ⟨List.mem_cons_of_mem _ h3.1, h3.2⟩⟩
            · rw [if_neg hlt] at hres
              rcases ih _ c s hres
                (by intro b' bs' hbs'
                    injection hbs' with h1
                    injection h1 with h1 h2
                    subst h1; subst h2
                    exact hacc b bs rfl) with ⟨h1, h2 | h3⟩
              · exact ⟨h1, Or.inl h2⟩
              · exact ⟨h1, Or.inr ⟨List.mem_cons_of_mem _ h3.1, h3.2⟩⟩
      · rw [if_neg hk] at hres
        rcases ih _ c s hres hacc with ⟨h1, h2 | h3⟩
        · exact ⟨h1, Or.inl h2⟩
        · exact ⟨h1, Or.inr ⟨List.mem_cons_of_mem _ h3.1, h3.2⟩⟩

theorem extractOneAux_ge_acc (q : List Char) (t : Nat) :
    ∀ (cs : List String) (acc : Option (String × (Nat × Nat)))
      (c : String) (s : Nat × Nat) (b : String) (bs : Nat × Nat),
    extractOneAux q t cs acc = some (c, s) → acc = some (b, bs) →
    0 < bs.2 → bs.1 * s.2 ≤ s.1 * bs.2 := by
  intro cs
  induction cs with
  | nil =>
      intro acc c s b bs hres hacc _
      simp only [extractOneAux] at hres
      rw [hacc] at hres
      injection hres with h
      injection h with h1 h2
      subst h2
      exact Nat.le_refl _
  | cons c0 cs' ih =>
      intro acc c s b bs hres hacc hpos
      subst hacc
      simp only [extractOneAux] at hres
      by_cases hk : scoreGeCutoff (fuzzRatioFrac q (fullProcess c0).data) t
      · rw [if_pos hk] at hres
        by_cases hlt : scoreLt bs (fuzzRatioFrac q (fullProcess c0).data)
        · rw [if_pos hlt] at hres
          have h2 := ih _ c s c0 (fuzzRatioFrac q (fullProcess c0).data) hres
            rfl (fuzzRatioFrac_den_pos _ _)
          unfold scoreLt at hlt
          exact fracLtLeTrans (fuzzRatioFrac_den_pos q (fullProcess c0).data)
            (of_decide_eq_true hlt) h2
        · rw [if_neg hlt] at hres
          exact ih _ c s b bs hres rfl hpos
      · rw [if_neg hk] at hres
        exact ih _ c s b bs hres rfl hpos

theorem extractOneAux_max (q : List Char) (t : Nat) :
    ∀ (cs : List String) (acc : Option (String × (Nat × Nat)))
      (c : String) (s : Nat × Nat),
    extractOneAux q t cs acc = some (c, s) →
    (∀ b bs, acc = some (b, bs) → 0 < bs.2) →
    ∀ c' ∈ cs, scoreGeCutoff (fuzzRatioFrac q (fullProcess c').data) t = true →
      (fuzzRatioFrac q (fullProcess c').data).1 * s.2 ≤
        s.1 * (fuzzRatioFrac q (fullProcess c').data).2 := by
  intro cs
  induction cs with
  | nil =>
      intro acc c s _ _ c' hc'
      exact absurd hc' (List.not_mem_nil c')
  | cons c0 cs' ih =>
      intro acc c s hres hacc c' hc' hcut
      simp only [extractOneAux] at hres
      rcases List.mem_cons.mp hc' with heq | hmem
      · subst heq
        rw [if_pos hcut] at hres
        cases acc with
        | none =>
            simp only [] at hres
            exact extractOneAux_ge_acc q t cs' _ c s c'
              (fuzzRatioFrac q (fullProcess c').data) hres rfl
              (fuzzRatioFrac_den_pos _ _)
        | some p =>
            rcases p with ⟨b, bs⟩
            simp only [] at hres
            by_cases hlt : scoreLt bs (fuzzRatioFrac q (fullProcess c').data)
            · rw [if_pos hlt] at hres
              exact extractOneAux_ge_acc q t cs' _ c s c'
                (fuzzRatioFrac q (fullProcess c').data) hres rfl
                (fuzzRatioFrac_den_pos _ _)
            · rw [if_neg hlt] at hres
              have hbspos : 0 < bs.2 := hacc b bs rfl
              have h2 := extractOneAux_ge_acc q t cs' _ c s b bs hres rfl hbspos
              unfold scoreLt at hlt
              have h1 : (fuzzRatioFrac q (fullProcess c').data).1 * bs.2 ≤
                  bs.1 * (fuzzRatioFrac q (fullProcess c').data).2 :=
                Nat.le_of_not_lt (of_decide_eq_false (Bool.not_eq_true _ ▸
                  (by simpa using hlt)))
              exact fracLeTrans hbspos h1 h2
      · by_cases hk : scoreGeCutoff (fuzzRatioFrac q (fullProcess c0).data) t
        · rw [if_pos hk] at hres
          cases acc with
          | none =>
              simp only [] at hres
              exact ih _ c s hres
                (by intro b bs hbs
                    injection hbs with h
                    injection h with h1 h2
                    subst h2
                    exact fuzzRatioFrac_den_pos _ _) c' hmem hcut
          | some p =>
              rcases p with ⟨b, bs⟩
              simp only [] at hres
              by_cases hlt : scoreLt bs (fuzzRatioFrac q (fullProcess c0).data)
              · rw [if_pos hlt] at hres
                exact ih _ c s hres
                  (by intro b' bs' hbs'
                      injection hbs' with h
                      injection h with h1 h2
                      subst h2
                      exact fuzzRatioFrac_den_pos _ _) c' hmem hcut
              · rw [if_neg hlt] at hres
                exact ih _ c s hres
                  (by intro b' bs' hbs'
                      injection hbs' with h
                      injection h with h1 h2
                      subst h2
                      exact hacc b bs rfl) c' hmem hcut
        · rw [if_neg hk] at hres
          exact ih _ c s hres hacc c' hmem hcut

theorem extractOneAux_none_of_below (q : List Char) (t : Nat) :
    ∀ cs : List String,
    (∀ c ∈ cs, scoreGeCutoff (fuzzRatioFrac q (fullProcess c).data) t = false) →
    extractOneAux q t cs none = none := by
  intro cs
  induction cs with
  | nil => intro _; rfl
  | cons c0 cs' ih =>
      intro h
      simp only [extractOneAux]
      rw [if_neg (by rw [h c0 (List.mem_cons_self _ _)]; exact Bool.false_ne_true)]
      exact ih (fun c hc => h c (List.mem_cons_of_mem _ hc))

/-- Claim C6 (confirmed): the fuzzy matcher returns a candidate only when
that candidate's similarity score is at least the configured threshold,
the returned candidate is a highest-scoring one, and when no candidate
reaches the threshold it returns nothing; the per-entity-class thresholds
default to country 85, state 80, city 75. -/
theorem fuzzyMatch_threshold_spec (query : String) (choices : List String)
    (t : Nat) :
    (∀ c s, pyExtractOne query choices t = some (c, s) →
      c ∈ choices ∧ s = choiceScore query c ∧ scoreGeCutoff s t = true ∧
      ∀ c' ∈ choices,
        (choiceScore query c').1 * s.2 ≤ s.1 * (choiceScore query c').2) ∧
    ((∀ c ∈ choices, scoreGeCutoff (choiceScore query c) t = false) →
      pyExtractOne query choices t = none) ∧
    (∀ L : FullCitiesDataLoader,
      (FuzzyStandardizer.init L).country_threshold = 85 ∧
      (FuzzyStandardizer.init L).state_threshold = 80 ∧
      (FuzzyStandardizer.init L).city_threshold = 75) := by
  refine ⟨?_, ?_, fun L => ⟨rfl, rfl, rfl⟩⟩
  · intro c s hres
    unfold pyExtractOne at hres
    have hsound := extractOneAux_some (fullProcess query).data t choices none
      c s hres (by intro b bs h; cases h)
    rcases hsound with ⟨hcut, hleft | ⟨hmem, hscore⟩⟩
    · cases hleft
    refine ⟨hmem, hscore, hcut, ?_⟩
    intro c' hc'
    by_cases hck : scoreGeCutoff (choiceScore query c') t
    · exact extractOneAux_max (fullProcess query).data t choices none c s hres
        (by intro b bs h; cases h) c' hc' hck
    · have hlt : (choiceScore query c').1 < t * (choiceScore query c').2 := by
        unfold scoreGeCutoff at hck
        exact Nat.lt_of_not_le (of_decide_eq_false (eq_false_of_ne_true hck))
      have hge : t * s.2 ≤ s.1 := by
        unfold scoreGeCutoff at hcut
        exact of_decide_eq_true hcut
      calc (choiceScore query c').1 * s.2
          ≤ (t * (choiceScore query c').2) * s.2 :=
            Nat.mul_le_mul_right _ (Nat.le_of_lt hlt)
        _ = (t * s.2) * (choiceScore query c').2 := by ring
        _ ≤ s.1 * (choiceScore query c').2 :=
            Nat.mul_le_mul_right _ hge
  · intro hbelow
    exact extractOneAux_none_of_below (fullProcess query).data t choices hbelow

/-- Witness for C6: on the demo corpus, the fuzzy hit for
"united statez" scores 2400/26 ≈ 92.3 ≥ 85, and a garbage query with
every candidate below the threshold yields nothing. -/
theorem fuzzyMatch_threshold_spec_witness :
    scoreGeCutoff (2400, 26) 85 = true ∧
    pyExtractOne "qqq" demoFS.country_names 85 = none :=
  ⟨((fuzzyMatch_threshold_spec "united statez" demoFS.country_names 85).1
      "united states" (2400, 26) (by decide)).2.2.1,
   (fuzzyMatch_threshold_spec "qqq" demoFS.country_names 85).2.1 (by decide)⟩

theorem isSubstrList_nil (hay : List Char) : isSubstrList [] hay = true := by
  cases hay <;> rfl

theorem cityMissTail_eq_none (fs : FuzzyStandardizer) (s : String) :
    fs.cityMissTail s = .ok none := by
  unfold FuzzyStandardizer.cityMissTail
  cases fs.loader.get_state_by_name s <;> rfl

/-- Claim C3 (confirmed): when the city field misses exact lookup but the
fuzzy matcher yields a candidate city, and the record carries a country
value, the candidate is accepted iff the candidate city's denormalized
country name and the record's country value overlap as substrings (either
direction, case-insensitively); otherwise the candidate is discarded and
city resolution returns a miss. -/
theorem cityFuzzy_countryHint_filter (fs : FuzzyStandardizer)
    (s h m : String) (sc : Nat × Nat) (ci : FullCityData)
    (hs : s ≠ "")
    (hexact : fs.loader.get_city_info s = none)
    (hfuzzy : pyExtractOne (pyNormalize s) fs.city_names fs.city_threshold =
      some (m, sc))
    (hcand : fs.loader.get_city_info m = some ci)
    (hh : h ≠ "") :
    fs._get_city_info_fuzzy (.vStr s) (.vStr h) =
      .ok (if pyIn (pyLowerStr h) (pyLowerStr ci.country_name) ||
            pyIn (pyLowerStr ci.country_name) (pyLowerStr h)
          then some ci else none) := by
  unfold FuzzyStandardizer._get_city_info_fuzzy
  have htruthy : (PyVal.vStr s).truthy = true := by
    simp [PyVal.truthy, hs]
  rw [if_neg (by rw [htruthy]; exact fun hc => hc rfl)]
  simp only [hexact, hfuzzy, hcand]
  split
  · by_cases hov : (pyIn (pyLowerStr h) (pyLowerStr ci.country_name) ||
        pyIn (pyLowerStr ci.country_name) (pyLowerStr h)) = true
    · rw [if_pos hov, if_pos hov]
    · rw [if_neg hov, if_neg hov]
      exact cityMissTail_eq_none fs s
  · next hcold =>
      by_cases hcn : ci.country_name = ""
      · have hov : pyIn (pyLowerStr ci.country_name) (pyLowerStr h) = true := by
          rw [hcn]
          exact isSubstrList_nil _
        rw [if_pos (by rw [hov, Bool.or_true])]
      · exact absurd (by simp [PyVal.truthy, hh, hcn]) hcold

/-- Witness for C3: the typo "Rio de Janero" with hint "Brazil" is
accepted (substring overlap with the candidate's country name). -/
theorem cityFuzzy_countryHint_filter_witness :
    demoFS._get_city_info_fuzzy (.vStr "Rio de Janero") (.vStr "Brazil") =
      .ok (if pyIn (pyLowerStr "Brazil") (pyLowerStr rioCity.country_name) ||
            pyIn (pyLowerStr rioCity.country_name) (pyLowerStr "Brazil")
          then some rioCity else none) :=
  cityFuzzy_countryHint_filter demoFS "Rio de Janero" "Brazil"
    "rio de janeiro" (2600, 27) rioCity (by decide) (by decide) (by decide)
    (by decide) (by decide)

/-- Counterexample to claim C2: with the countries snapshot file absent
and the other two present, construction succeeds (no fatal error) and the
store initializes partially, with an empty country table alongside
populated state and city tables — the claim says construction must
fail whenever any one of the three tables is absent. -/
theorem load_absent_countries_partial_init :
    exceptIsOk (FullCitiesDataLoader.load .absent
      (.good demoLoader.state_mappings)
      (.good demoLoader.city_mappings)) = true ∧
    (FullCitiesDataLoader.load .absent (.good demoLoader.state_mappings)
      (.good demoLoader.city_mappings)).toOption.map (·.country_mappings) =
      some [] ∧
    (FullCitiesDataLoader.load .absent (.good demoLoader.state_mappings)
      (.good demoLoader.city_mappings)).toOption.map
        (·.city_mappings.length) = some 4 := by
  refine ⟨rfl, rfl, ?_⟩
  decide

/-- Claim C2 (amended): construction of the reference store fails exactly
when reading one of the three snapshot files raises (corrupt data); an
absent snapshot file is merely warned about and leaves that table empty,
so the store initializes partially rather than failing. -/
theorem load_failure_spec :
    (∀ (cf : SnapshotFile (List (String × CountryData)))
       (sf : SnapshotFile (List (String × StateData)))
       (cif : SnapshotFile (List (String × FullCityData))),
      exceptIsOk (FullCitiesDataLoader.load cf sf cif) =
        (!cf.isCorrupt && !sf.isCorrupt && !cif.isCorrupt)) ∧
    (∀ (sm : List (String × StateData)) (im : List (String × FullCityData)),
      (FullCitiesDataLoader.load .absent (.good sm) (.good im)).toOption.map
        (·.country_mappings) = some []) := by
  constructor
  · intro cf sf cif
    cases cf <;> cases sf <;> cases cif <;> rfl
  · intro sm im
    simp only [FullCitiesDataLoader.load, FullCitiesDataLoader.load_countries,
      FullCitiesDataLoader.load_states, FullCitiesDataLoader.load_all_cities,
      Except.toOption, Option.map, FullCitiesDataLoader.add_common_variations]
    rfl

/-- Counterexample to claim C5: the record `{city: "Florida"}` — not an
exact city name, but exactly the name of the known state Florida — is
captured by the fuzzy city match (the city "floridia" scores ≈93 ≥ 75)
BEFORE the state-misclassification check is reached, so the output has a
cityCode and no stateCode, where the claim requires stateCode = "US-FL"
and cityCode null. -/
theorem florida_resolves_as_city_not_state :
    demoLoader.get_city_info "Florida" = none ∧
    demoLoader.get_state_by_name "Florida" =
      some ⟨14, "FL", "US-FL", "Florida", "US"⟩ ∧
    demoFS.standardize_customer_data
      { city := .vStr "Florida", country := .vNone, state := .vNone,
        address := .vNone } =
      .ok { city := .vStr "Florida", country := .vNone, state := .vNone,
            address := .vNone,
            cityCode := some "floridia", cityDisplay := some "Floridia",
            countryCode := some "IT", countryDisplay := some "Italy",
            stateCode := none, stateDisplay := none } := by
  refine ⟨by decide, by decide, rfl⟩

/-- Claim C5 (amended): the state-misclassification check runs only after
both the exact and the fuzzy city lookups miss.  For every record whose
city field is text that fails city resolution entirely (exact, fuzzy and
hint filter) and is exactly the name of a known state, and whose own
country and state fields are absent/falsy, the record is resolved as a
state: stateCode gets that state's iso3166-2 code, stateDisplay its
display name, and cityCode is left untouched (null if absent). -/
theorem cityMisclassifiedAsState (fs : FuzzyStandardizer) (cd : CustomerData)
    (s : String) (st : StateData)
    (hcity : cd.city = .vStr s) (hs : s ≠ "")
    (hmiss : fs._get_city_info_fuzzy (.vStr s) cd.country = .ok none)
    (hstate : fs.loader.get_state_by_name s = some st)
    (hcountryNT : cd.country.truthy = false)
    (hstateNT : cd.state.truthy = false) :
    fs.standardize_customer_data cd =
      .ok { cd with stateCode := some st.iso3166_2,
                    stateDisplay := some st.display } := by
  have htr : (PyVal.vStr s).truthy = true := by simp [PyVal.truthy, hs]
  unfold FuzzyStandardizer.standardize_customer_data
  unfold FuzzyStandardizer.step1
  rw [hcity, if_pos htr, hmiss]
  unfold FuzzyStandardizer.getStateByNameV
  rw [if_neg (by rw [htr]; exact fun hc => hc rfl)]
  simp only [hstate]
  simp [FuzzyStandardizer.stages23, FuzzyStandardizer._standardize_country,
    FuzzyStandardizer._standardize_state, FuzzyStandardizer.countryFromCity,
    FuzzyStandardizer.stateFromCity, hcountryNT, hstateNT, truthyOpt]

/-- Witness for the amended C5: `{city: "Texas"}` over the demo store —
full city miss, exact state-name hit, output stateCode "US-TX". -/
theorem cityMisclassifiedAsState_witness :
    demoFS.standardize_customer_data
      { city := .vStr "Texas", country := .vNone, state := .vNone,
        address := .vNone } =
      .ok { city := .vStr "Texas", country := .vNone, state := .vNone,
            address := .vNone,
            stateCode := some "US-TX", stateDisplay := some "Texas" } :=
  cityMisclassifiedAsState demoFS
    { city := .vStr "Texas", country := .vNone, state := .vNone,
      address := .vNone }
    "Texas" ⟨11, "TX", "US-TX", "Texas", "US"⟩ rfl (by decide) (by decide)
    (by decide) rfl rfl

/-- Claim C10 (confirmed): when the city stage resolves a misclassified
city value as a state (writing that state's iso3166-2 code/display), the
state stage still runs on the record's own state field with no resolved
city to fall back on; if it yields a truthy code/display pair, that pair
overwrites the misclassification result, and otherwise (state field
absent or unresolvable) the misclassification result survives. -/
theorem misclassifiedState_overwrite (fs : FuzzyStandardizer)
    (cd : CustomerData) (s : String) (st : StateData)
    (p q : Option String × Option String)
    (hcity : cd.city = .vStr s) (hs : s ≠ "")
    (hmiss : fs._get_city_info_fuzzy (.vStr s) cd.country = .ok none)
    (hstate : fs.loader.get_state_by_name s = some st)
    (hcountry : fs._standardize_country cd.country none = .ok q)
    (hstage : fs._standardize_state cd.state none = .ok p) :
    ((truthyOpt p.1 && truthyOpt p.2) = true →
      outStateCode (fs.standardize_customer_data cd) = some p.1 ∧
      outStateDisplay (fs.standardize_customer_data cd) = some p.2) ∧
    ((truthyOpt p.1 && truthyOpt p.2) = false →
      outStateCode (fs.standardize_customer_data cd) =
        some (some st.iso3166_2) ∧
      outStateDisplay (fs.standardize_customer_data cd) =
        some (some st.display)) := by
  have htr : (PyVal.vStr s).truthy = true := by simp [PyVal.truthy, hs]
  unfold FuzzyStandardizer.standardize_customer_data
  unfold FuzzyStandardizer.step1
  rw [hcity, if_pos htr, hmiss]
  unfold FuzzyStandardizer.getStateByNameV
  rw [if_neg (by rw [htr]; exact fun hc => hc rfl)]
  simp only [hstate]
  unfold FuzzyStandardizer.stages23
  simp only [hcountry]
  constructor <;> intro hp <;>
    cases hq : (truthyOpt q.1 && truthyOpt q.2) <;>
      simp [hq, hstage, hp, outStateCode, outStateDisplay, Except.toOption]

/-- Witness for C10: `{city: "Texas", state: "California"}` — the
misclassification writes "US-TX", then the state stage's direct hit on
"California" overwrites it with "CA". -/
theorem misclassifiedState_overwrite_witness :
    outStateCode (demoFS.standardize_customer_data
      { city := .vStr "Texas", country := .vNone, state := .vStr "California",
        address := .vNone }) = some (some "CA") ∧
    outStateDisplay (demoFS.standardize_customer_data
      { city := .vStr "Texas", country := .vNone, state := .vStr "California",
        address := .vNone }) = some (some "California") :=
  (misclassifiedState_overwrite demoFS
    { city := .vStr "Texas", country := .vNone, state := .vStr "California",
      address := .vNone }
    "Texas" ⟨11, "TX", "US-TX", "Texas", "US"⟩
    (some "CA", some "California") (none, none)
    rfl (by decide) (by decide) (by decide) (by decide) (by decide)).1
    (by decide)

/-- Claim C9 (confirmed): direct exact and fuzzy country resolution write
the country table's ISO3 code ("USA"), while the fallback-from-city path
writes the city record's denormalized ISO2 code ("US"); hence the same
underlying country (id 1, United States) yields different countryCode
values depending on which resolution path succeeded. -/
theorem countryCode_iso3_vs_iso2_paths :
    outCountryCode (demoFS.standardize_customer_data
      { city := .vNone, country := .vStr "United States", state := .vNone,
        address := .vNone }) = some (some "USA") ∧
    outCountryCode (demoFS.standardize_customer_data
      { city := .vNone, country := .vStr "United Statez", state := .vNone,
        address := .vNone }) = some (some "USA") ∧
    outCountryCode (demoFS.standardize_customer_data
      { city := .vStr "Austin", country := .vNone, state := .vNone,
        address := .vNone }) = some (some "US") ∧
    austinCity.country_id = 1 ∧ austinCity.country = "US" ∧
    dictGet demoLoader.country_mappings "united states" =
      some ⟨1, "USA", "US", "United States"⟩ ∧
    ("USA" : String) ≠ "US" := by
  exact ⟨by decide, by decide, by decide, rfl, rfl, by decide, by decide⟩

/-- Counterexample to claim C4: a record with an absent (`None`) city and
an address containing the locatable city Austin undergoes NO address
extraction at all — the address fallback is nested inside the truthy-city
branch — so the record comes back unchanged with cityCode null, where the
claim requires the cityCode for Austin. -/
theorem absentCity_address_not_extracted :
    demoFS.standardize_customer_data
      { city := .vNone, country := .vNone, state := .vNone,
        address := .vStr "123 Main St, Austin, Texas" } =
      .ok { city := .vNone, country := .vNone, state := .vNone,
            address := .vStr "123 Main St, Austin, Texas" } ∧
    (demoLoader.get_city_info "Austin").isSome = true := ⟨rfl, rfl⟩

/-- Claim C4 (amended): the address-extraction fallback runs only when
the city field is present as truthy text but fails exact, fuzzy, and
state-name resolution; in that case, if a token is extracted from the
address and that token resolves as a city, the output carries that
city's code and display. -/
theorem addressFallback_spec (fs : FuzzyStandardizer) (cd : CustomerData)
    (s a tok : String) (ci : FullCityData)
    (p q : Option String × Option String)
    (hcity : cd.city = .vStr s) (hs : s ≠ "")
    (hmiss : fs._get_city_info_fuzzy (.vStr s) cd.country = .ok none)
    (hnostate : fs.loader.get_state_by_name s = none)
    (haddr : cd.address = .vStr a) (ha : a ≠ "")
    (hparse : fs.loader.parse_city_from_address a = some tok)
    (hresolve : fs._get_city_info_fuzzy (.vStr tok) cd.country =
      .ok (some ci))
    (hcountry : fs._standardize_country cd.country (some ci) = .ok q)
    (hstate : fs._standardize_state cd.state (some ci) = .ok p) :
    outCityCode (fs.standardize_customer_data cd) = some (some ci.code) ∧
    outCityDisplay (fs.standardize_customer_data cd) =
      some (some ci.display) := by
  have htr : (PyVal.vStr s).truthy = true := by simp [PyVal.truthy, hs]
  have hatr : (PyVal.vStr a).truthy = true := by simp [PyVal.truthy, ha]
  unfold FuzzyStandardizer.standardize_customer_data
  unfold FuzzyStandardizer.step1
  rw [hcity, if_pos htr, hmiss]
  unfold FuzzyStandardizer.getStateByNameV
  rw [if_neg (by rw [htr]; exact fun hc => hc rfl)]
  simp only [hnostate]
  rw [haddr]
  unfold FuzzyStandardizer.addrResolve
  rw [if_pos hatr]
  simp only [hparse, hresolve]
  unfold FuzzyStandardizer.stages23
  simp only [hcountry]
  cases hq : (truthyOpt q.1 && truthyOpt q.2) <;>
    cases hp : (truthyOpt p.1 && truthyOpt p.2) <;>
      simp [hstate, hp, outCityCode, outCityDisplay, Except.toOption]

/-- Witness for the amended C4: city "zzz" resolves nowhere, the address
"9 Elm Way, Austin" yields the token "austin", which resolves exactly. -/
theorem addressFallback_spec_witness :
    outCityCode (demoFS.standardize_customer_data
      { city := .vStr "zzz", country := .vNone, state := .vNone,
        address := .vStr "9 Elm Way, Austin" }) = some (some "austin") ∧
    outCityDisplay (demoFS.standardize_customer_data
      { city := .vStr "zzz", country := .vNone, state := .vNone,
        address := .vStr "9 Elm Way, Austin" }) = some (some "Austin") :=
  addressFallback_spec demoFS
    { city := .vStr "zzz", country := .vNone, state := .vNone,
      address := .vStr "9 Elm Way, Austin" }
    "zzz" "9 Elm Way, Austin" "austin" austinCity
    (some "US-TX", some "Texas") (some "US", some "United States")
    rfl (by decide) (by decide) (by decide) rfl (by decide) (by decide)
    (by decide) (by decide) (by decide)

theorem standardize_country_fallback (fs : FuzzyStandardizer) (v : PyVal)
    (oci : Option FullCityData)
    (hmiss : v.truthy = false ∨
      ∃ t, v = .vStr t ∧
        (truthyOpt (fs.loader.get_country_code t) &&
          truthyOpt (fs.loader.get_country_display t)) = false ∧
        pyExtractOne (pyNormalize t) fs.country_names fs.country_threshold =
          none) :
    fs._standardize_country v oci =
      .ok (FuzzyStandardizer.countryFromCity oci) := by
  unfold FuzzyStandardizer._standardize_country
  rcases hmiss with hnf | ⟨t, hv, hdir, hfz⟩
  · rw [if_neg (by rw [hnf]; exact Bool.false_ne_true)]
  · subst hv
    by_cases htr : (PyVal.vStr t).truthy = true
    · rw [if_pos htr]
      simp only [hdir, hfz, Bool.false_eq_true, if_false]
    · rw [if_neg htr]

theorem standardize_state_fallback (fs : FuzzyStandardizer) (v : PyVal)
    (oci : Option FullCityData)
    (hmiss : v.truthy = false ∨
      ∃ t, v = .vStr t ∧
        (truthyOpt (fs.loader.get_state_code t) &&
          truthyOpt (fs.loader.get_state_display t)) = false ∧
        pyExtractOne (pyNormalize t) fs.state_names fs.state_threshold =
          none) :
    fs._standardize_state v oci =
      .ok (FuzzyStandardizer.stateFromCity fs.loader oci) := by
  unfold FuzzyStandardizer._standardize_state
  rcases hmiss with hnf | ⟨t, hv, hdir, hfz⟩
  · rw [if_neg (by rw [hnf]; exact Bool.false_ne_true)]
  · subst hv
    by_cases htr : (PyVal.vStr t).truthy = true
    · rw [if_pos htr]
      simp only [hdir, hfz, Bool.false_eq_true, if_false]
    · rw [if_neg htr]

/-- Counterexample to claim C1: on `{city: "Austin", country: "United
Statez"}` city resolution succeeds and the country field misses direct
lookup, yet the output countryCode is the fuzzy match's ISO3 "USA", not
the resolved city's denormalized code "US" — the fuzzy stage intervenes
between direct lookup and the city fallback. -/
theorem countryFuzzy_overrides_cityFallback :
    demoLoader.get_city_info "Austin" = some austinCity ∧
    demoLoader.get_country_code "United Statez" = none ∧
    outCountryCode (demoFS.standardize_customer_data
      { city := .vStr "Austin", country := .vStr "United Statez",
        state := .vNone, address := .vNone }) = some (some "USA") ∧
    austinCity.country = "US" ∧ ("USA" : String) ≠ "US" := by
  exact ⟨by decide, by decide, by decide, rfl, by decide⟩

/-- Claim C1 (amended): if city resolution succeeds and the country
(resp. state) field is absent/falsy or resolves by neither direct lookup
nor fuzzy matching, then — provided the city's denormalized fields are
truthy — the output countryCode equals the resolved city's denormalized
(ISO2) country code exactly, and the output stateCode equals the
iso3166-2 code of the state reached through the city's stateId
back-reference, with stateDisplay the city's denormalized state name. -/
theorem cityFallback_codes (fs : FuzzyStandardizer) (cd : CustomerData)
    (ci : FullCityData) (cd1 : CustomerData) (sc : String)
    (hstep1 : fs.step1 cd = .ok (some ci, cd1))
    (hcountryMiss : cd1.country.truthy = false ∨
      ∃ t, cd1.country = .vStr t ∧
        (truthyOpt (fs.loader.get_country_code t) &&
          truthyOpt (fs.loader.get_country_display t)) = false ∧
        pyExtractOne (pyNormalize t) fs.country_names fs.country_threshold =
          none)
    (hstateMiss : cd1.state.truthy = false ∨
      ∃ t, cd1.state = .vStr t ∧
        (truthyOpt (fs.loader.get_state_code t) &&
          truthyOpt (fs.loader.get_state_display t)) = false ∧
        pyExtractOne (pyNormalize t) fs.state_names fs.state_threshold =
          none)
    (hcc : ci.country ≠ "") (hcn : ci.country_name ≠ "")
    (hsid : ci.state_id ≠ 0)
    (hiso : fs.loader.get_state_iso3166_2_by_id ci.state_id = some sc)
    (hsc : sc ≠ "") (hsn : ci.state_name ≠ "") :
    outCountryCode (fs.standardize_customer_data cd) =
      some (some ci.country) ∧
    outCountryDisplay (fs.standardize_customer_data cd) =
      some (some ci.country_name) ∧
    outStateCode (fs.standardize_customer_data cd) = some (some sc) ∧
    outStateDisplay (fs.standardize_customer_data cd) =
      some (some ci.state_name) := by
  have hcfb : FuzzyStandardizer.countryFromCity (some ci) =
      (some ci.country, some ci.country_name) := by
    simp [FuzzyStandardizer.countryFromCity, hcc, hcn]
  have hsfb : FuzzyStandardizer.stateFromCity fs.loader (some ci) =
      (some sc, some ci.state_name) := by
    simp [FuzzyStandardizer.stateFromCity, hsid, hiso, hsc, hsn, truthyOpt]
  unfold FuzzyStandardizer.standardize_customer_data
  rw [hstep1]
  simp [FuzzyStandardizer.stages23,
    standardize_country_fallback fs cd1.country (some ci) hcountryMiss,
    standardize_state_fallback fs cd1.state (some ci) hstateMiss,
    hcfb, hsfb, truthyOpt, hcc, hcn, hsc, hsn,
    outCountryCode, outCountryDisplay, outStateCode, outStateDisplay,
    Except.toOption]

/-- Witness for the amended C1: `{city: "Austin"}` with absent country
and state — the output carries the city record's "US" and the iso3166-2
code "US-TX" found via `state_id` 11. -/
theorem cityFallback_codes_witness :
    outCountryCode (demoFS.standardize_customer_data
      { city := .vStr "Austin", country := .vNone, state := .vNone,
        address := .vNone }) = some (some "US") ∧
    outCountryDisplay (demoFS.standardize_customer_data
      { city := .vStr "Austin", country := .vNone, state := .vNone,
        address := .vNone }) = some (some "United States") ∧
    outStateCode (demoFS.standardize_customer_data
      { city := .vStr "Austin", country := .vNone, state := .vNone,
        address := .vNone }) = some (some "US-TX") ∧
    outStateDisplay (demoFS.standardize_customer_data
      { city := .vStr "Austin", country := .vNone, state := .vNone,
        address := .vNone }) = some (some "Texas") :=
  cityFallback_codes demoFS
    { city := .vStr "Austin", country := .vNone, state := .vNone,
      address := .vNone }
    austinCity
    { city := .vStr "Austin", country := .vNone, state := .vNone,
      address := .vNone, cityCode := some "austin",
      cityDisplay := some "Austin" }
    "US-TX" (by decide) (Or.inl rfl) (Or.inl rfl) (by decide) (by decide)
    (by decide) (by decide) (by decide) (by decide)

theorem stages23_congr (fs : FuzzyStandardizer) (ci : Option FullCityData)
    (r r' : CustomerData) (hout : OutEq r r')
    (hcstage : fs._standardize_country r.country ci =
      fs._standardize_country r'.country ci)
    (hsstage : fs._standardize_state r.state ci =
      fs._standardize_state r'.state ci) :
    geoOut (fs.stages23 ci r) = geoOut (fs.stages23 ci r') := by
  obtain ⟨h1, h2, h3, h4, h5, h6⟩ := hout
  unfold FuzzyStandardizer.stages23
  rw [hcstage]
  cases hcr : fs._standardize_country r'.country ci with
  | error e => rfl
  | ok p =>
      rcases p with ⟨cc, cdp⟩
      simp only []
      cases hb : (truthyOpt cc && truthyOpt cdp) <;>
        · simp only [hb, Bool.false_eq_true, if_false, if_true]
          rw [hsstage]
          cases hsr : fs._standardize_state r'.state ci with
          | error e => rfl
          | ok q =>
              rcases q with ⟨sc, sd⟩
              simp only []
              cases hb2 : (truthyOpt sc && truthyOpt sd) <;>
                simp [hb2, geoOut, h1, h2, h3, h4, h5, h6]

theorem standardize_congr (fs : FuzzyStandardizer) (cd cd' : CustomerData)
    (htr : cd.city.truthy = cd'.city.truthy)
    (heq : cd.city.truthy = true → cd.city = cd'.city)
    (hgc : cd.city.truthy = true →
      fs._get_city_info_fuzzy cd.city cd.country =
        fs._get_city_info_fuzzy cd'.city cd'.country)
    (har : cd.city.truthy = true →
      fs.addrResolve cd.address cd.country =
        fs.addrResolve cd'.address cd'.country)
    (hcs : ∀ ci, fs._standardize_country cd.country ci =
      fs._standardize_country cd'.country ci)
    (hss : ∀ ci, fs._standardize_state cd.state ci =
      fs._standardize_state cd'.state ci)
    (hout : OutEq cd cd') :
    geoOut (fs.standardize_customer_data cd) =
      geoOut (fs.standardize_customer_data cd') := by
  unfold FuzzyStandardizer.standardize_customer_data
  unfold FuzzyStandardizer.step1
  by_cases hcy : cd.city.truthy = true
  · rw [if_pos hcy, if_pos (htr ▸ hcy), hgc hcy]
    cases hg : fs._get_city_info_fuzzy cd'.city cd'.country with
    | error e => rfl
    | ok oci =>
        cases oci with
        | some ci =>
            simp only []
            exact stages23_congr fs (some ci) _ _
              ⟨rfl, rfl, hout.2.2.1, hout.2.2.2.1, hout.2.2.2.2.1,
               hout.2.2.2.2.2⟩ (hcs (some ci)) (hss (some ci))
        | none =>
            simp only []
            rw [heq hcy]
            cases hst : FuzzyStandardizer.getStateByNameV fs.loader
                cd'.city with
            | error e => rfl
            | ok ost =>
                cases ost with
                | some st =>
                    simp only []
                    exact stages23_congr fs none _ _
                      ⟨hout.1, hout.2.1, hout.2.2.1, hout.2.2.2.1, rfl, rfl⟩
                      (hcs none) (hss none)
                | none =>
                    simp only []
                    rw [har hcy]
                    cases ha : fs.addrResolve cd'.address cd'.country with
                    | error e => rfl
                    | ok oci2 =>
                        cases oci2 with
                        | some ci =>
                            simp only []
                            exact stages23_congr fs (some ci) _ _
                              ⟨rfl, rfl, hout.2.2.1, hout.2.2.2.1,
                               hout.2.2.2.2.1, hout.2.2.2.2.2⟩
                              (hcs (some ci)) (hss (some ci))
                        | none =>
                            simp only []
                            exact stages23_congr fs none _ _ hout
                              (hcs none) (hss none)
  · rw [if_neg hcy, if_neg (htr ▸ hcy)]
    exact stages23_congr fs none _ _ hout (hcs none) (hss none)

theorem gcif_hint_irrel (fs : FuzzyStandardizer) (c h h' : PyVal)
    (hh : h.truthy = false) (hh' : h'.truthy = false) :
    fs._get_city_info_fuzzy c h = fs._get_city_info_fuzzy c h' := by
  unfold FuzzyStandardizer._get_city_info_fuzzy
  by_cases hct : c.truthy = true
  · simp only [hct, not_true, if_false]
    cases c with
    | vStr s =>
        simp only [hh, hh', Bool.false_and, Bool.false_eq_true, if_false]
    | vNone => rfl
    | vInt n => rfl
  · simp only [eq_false_of_ne_true hct, Bool.false_eq_true, not_false_eq_true,
      if_true]

theorem addrResolve_hint_irrel (fs : FuzzyStandardizer) (a h h' : PyVal)
    (hh : h.truthy = false) (hh' : h'.truthy = false) :
    fs.addrResolve a h = fs.addrResolve a h' := by
  unfold FuzzyStandardizer.addrResolve
  by_cases hat : a.truthy = true
  · simp only [hat, if_true]
    cases a with
    | vStr x =>
        simp only []
        cases fs.loader.parse_city_from_address x with
        | some tok => exact gcif_hint_irrel fs (.vStr tok) h h' hh hh'
        | none => rfl
    | vNone => rfl
    | vInt n => rfl
  · simp only [eq_false_of_ne_true hat, Bool.false_eq_true, if_false]

theorem pyNormalize_ws (s : String)
    (hws : s.data.all Char.isWhitespace = true) : pyNormalize s = "" := by
  show (⟨listStrip (s.data.map Char.toLower)⟩ : String) = ""
  have hall : (s.data.map Char.toLower).all Char.isWhitespace = true := by
    rw [List.all_eq_true] at hws ⊢
    intro x hx
    rcases List.mem_map.mp hx with ⟨y, hy, hxy⟩
    rw [← hxy, charToLower_isWhitespace]
    exact hws y hy
  have hnil : (s.data.map Char.toLower).dropWhile Char.isWhitespace = [] := by
    rw [List.dropWhile_eq_nil_iff]
    intro x hx
    exact (List.all_eq_true.mp hall x hx)
  unfold listStrip
  rw [hnil]
  rfl

theorem replicate_getLastD (n : Nat) :
    (List.replicate n (0 : Nat)).getLastD 0 = 0 := by
  induction n with
  | zero => rfl
  | succ m ih =>
      rw [List.replicate_succ]
      cases hm : List.replicate m (0 : Nat) with
      | nil => rfl
      | cons a l =>
          rw [List.getLastD_cons]
          rw [← hm, ih]

theorem llcs_nil (b : List Char) : llcs [] b = 0 := by
  unfold llcs
  rw [List.foldl_nil]
  exact replicate_getLastD (b.length + 1)

theorem extractOne_empty_query (choices : List String) (t : Nat)
    (ht : 0 < t) (hc : ∀ n ∈ choices, (fullProcess n).data ≠ []) :
    pyExtractOne "" choices t = none := by
  have h0 : (fullProcess "").data = ([] : List Char) := rfl
  unfold pyExtractOne
  rw [h0]
  apply extractOneAux_none_of_below
  intro c hcm
  have hne := hc c hcm
  have hpos : 0 < (fullProcess c).data.length := List.length_pos.mpr hne
  have hlen : ([] : List Char).length + (fullProcess c).data.length ≠ 0 := by
    simp only [List.length_nil, Nat.zero_add]
    omega
  unfold fuzzRatioFrac
  rw [if_neg hlen]
  unfold scoreGeCutoff
  apply decide_eq_false
  simp only [llcs_nil, Nat.mul_zero, List.length_nil, Nat.zero_add]
  intro hle
  have := Nat.mul_pos ht hpos
  omega

theorem cityFalsy_as_absent (fs : FuzzyStandardizer) (cd : CustomerData)
    (v : PyVal) (hv : v.truthy = false) :
    geoOut (fs.standardize_customer_data { cd with city := v }) =
      geoOut (fs.standardize_customer_data { cd with city := .vNone }) := by
  apply standardize_congr
  · show v.truthy = PyVal.vNone.truthy
    rw [hv]
    rfl
  · intro h
    exact absurd (show v.truthy = true from h) (by simp [hv])
  · intro h
    exact absurd (show v.truthy = true from h) (by simp [hv])
  · intro h
    exact absurd (show v.truthy = true from h) (by simp [hv])
  · intro ci
    rfl
  · intro ci
    rfl
  · exact ⟨rfl, rfl, rfl, rfl, rfl, rfl⟩

theorem stateMiss_as_absent (fs : FuzzyStandardizer) (cd : CustomerData)
    (v : PyVal)
    (hmiss : v.truthy = false ∨
      ∃ t, v = .vStr t ∧
        (truthyOpt (fs.loader.get_state_code t) &&
          truthyOpt (fs.loader.get_state_display t)) = false ∧
        pyExtractOne (pyNormalize t) fs.state_names fs.state_threshold =
          none) :
    geoOut (fs.standardize_customer_data { cd with state := v }) =
      geoOut (fs.standardize_customer_data { cd with state := .vNone }) := by
  apply standardize_congr
  · rfl
  · intro _
    rfl
  · intro _
    rfl
  · intro _
    rfl
  · intro ci
    rfl
  · intro ci
    show fs._standardize_state v ci = fs._standardize_state .vNone ci
    rw [standardize_state_fallback fs v ci hmiss,
      standardize_state_fallback fs .vNone ci (Or.inl rfl)]
  · exact ⟨rfl, rfl, rfl, rfl, rfl, rfl⟩

theorem countryMiss_as_absent (fs : FuzzyStandardizer) (cd : CustomerData)
    (v : PyVal)
    (hhint : v.truthy = false ∨ cd.city.truthy = false)
    (hmiss : v.truthy = false ∨
      ∃ t, v = .vStr t ∧
        (truthyOpt (fs.loader.get_country_code t) &&
          truthyOpt (fs.loader.get_country_display t)) = false ∧
        pyExtractOne (pyNormalize t) fs.country_names fs.country_threshold =
          none) :
    geoOut (fs.standardize_customer_data { cd with country := v }) =
      geoOut (fs.standardize_customer_data { cd with country := .vNone }) := by
  apply standardize_congr
  · rfl
  · intro _
    rfl
  · intro hcy
    rcases hhint with hvf | hcf
    · exact gcif_hint_irrel fs cd.city v .vNone hvf rfl
    · exact absurd (show cd.city.truthy = true from hcy) (by simp [hcf])
  · intro hcy
    rcases hhint with hvf | hcf
    · exact addrResolve_hint_irrel fs cd.address v .vNone hvf rfl
    · exact absurd (show cd.city.truthy = true from hcy) (by simp [hcf])
  · intro ci
    show fs._standardize_country v ci = fs._standardize_country .vNone ci
    rw [standardize_country_fallback fs v ci hmiss,
      standardize_country_fallback fs .vNone ci (Or.inl rfl)]
  · intro ci
    rfl
  · exact ⟨rfl, rfl, rfl, rfl, rfl, rfl⟩

theorem addressMiss_as_absent (fs : FuzzyStandardizer) (cd : CustomerData)
    (v : PyVal)
    (hmiss : v.truthy = false ∨
      ∃ a, v = .vStr a ∧ fs.loader.parse_city_from_address a = none) :
    geoOut (fs.standardize_customer_data { cd with address := v }) =
      geoOut (fs.standardize_customer_data { cd with address := .vNone }) := by
  apply standardize_congr
  · rfl
  · intro _
    rfl
  · intro _
    rfl
  · intro _
    show fs.addrResolve v cd.country = fs.addrResolve .vNone cd.country
    rcases hmiss with hvf | ⟨a, hva, hpn⟩
    · unfold FuzzyStandardizer.addrResolve
      simp only [hvf, Bool.false_eq_true, if_false]
      rfl
    · subst hva
      unfold FuzzyStandardizer.addrResolve
      by_cases hat : (PyVal.vStr a).truthy = true
      · simp only [hat, if_true, hpn]
        rfl
      · simp only [eq_false_of_ne_true hat, Bool.false_eq_true, if_false]
        rfl
  · intro ci
    rfl
  · intro ci
    rfl
  · exact ⟨rfl, rfl, rfl, rfl, rfl, rfl⟩

theorem parse_ws_none (L : FullCitiesDataLoader) (a : String) (ha : a ≠ "")
    (hws : a.data.all Char.isWhitespace = true) :
    L.parse_city_from_address a = none := by
  unfold FullCitiesDataLoader.parse_city_from_address
  rw [if_neg ha, pyNormalize_ws a hws]
  rfl

theorem wsCity_as_absent (fs : FuzzyStandardizer) (cd : CustomerData)
    (s : String) (hs : s ≠ "") (hws : s.data.all Char.isWhitespace = true)
    (hck : dictGet fs.loader.city_mappings "" = none)
    (hsk : dictGet fs.loader.state_mappings "" = none)
    (hcorp : ∀ n ∈ fs.city_names, (fullProcess n).data ≠ [])
    (hth : 0 < fs.city_threshold)
    (haddr : cd.address.truthy = false) :
    geoOut (fs.standardize_customer_data { cd with city := .vStr s }) =
      geoOut (fs.standardize_customer_data { cd with city := .vNone }) := by
  have hnorm : pyNormalize s = "" := pyNormalize_ws s hws
  have htr : (PyVal.vStr s).truthy = true := by simp [PyVal.truthy, hs]
  have hexact : fs.loader.get_city_info s = none := by
    unfold FullCitiesDataLoader.get_city_info
    rw [if_neg hs, hnorm, hck]
  have hfz : pyExtractOne (pyNormalize s) fs.city_names fs.city_threshold =
      none := by
    rw [hnorm]
    exact extractOne_empty_query _ _ hth hcorp
  have hsbn : fs.loader.get_state_by_name s = none := by
    unfold FullCitiesDataLoader.get_state_by_name
    rw [if_neg hs, hnorm, hsk]
  have hgc : fs._get_city_info_fuzzy (.vStr s) cd.country = .ok none := by
    unfold FuzzyStandardizer._get_city_info_fuzzy
    rw [if_neg (by rw [htr]; exact fun hc => hc rfl)]
    simp only [hexact, hfz]
    unfold FuzzyStandardizer.cityMissTail
    rw [hsbn]
  unfold FuzzyStandardizer.standardize_customer_data
  unfold FuzzyStandardizer.step1
  rw [if_pos (show ({ cd with city := .vStr s } :
        CustomerData).city.truthy = true from htr),
      if_neg (show ¬ ({ cd with city := .vNone } :
        CustomerData).city.truthy = true from fun hc => by cases hc)]
  rw [show ({ cd with city := .vStr s } : CustomerData).city =
    PyVal.vStr s from rfl]
  rw [show ({ cd with city := .vStr s } : CustomerData).country =
    cd.country from rfl]
  rw [hgc]
  simp only []
  unfold FuzzyStandardizer.getStateByNameV
  rw [if_neg (by rw [htr]; exact fun hc => hc rfl)]
  simp only [hsbn]
  unfold FuzzyStandardizer.addrResolve
  rw [if_neg (show ¬ ({ cd with city := .vStr s } :
      CustomerData).address.truthy = true from by
    rw [show ({ cd with city := .vStr s } : CustomerData).address =
      cd.address from rfl, haddr]
    exact Bool.false_ne_true)]
  simp only []
  exact stages23_congr fs none _ _ ⟨rfl, rfl, rfl, rfl, rfl, rfl⟩ rfl rfl

theorem dictGet_isSome_of_mem_keys {α : Type} (l : List (String × α))
    (k : String) (hk : k ∈ l.map (·.1)) : (dictGet l k).isSome = true := by
  induction l with
  | nil => simp at hk
  | cons p t ih =>
      unfold dictGet
      by_cases hpk : p.1 = k
      · rw [List.find?_cons_of_pos _ (by simp [hpk])]
        rfl
      · rw [List.find?_cons_of_neg _ (by simp [hpk])]
        have hk' : k = p.1 ∨ ∃ x, (k, x) ∈ t := by simpa using hk
        rcases hk' with h1 | ⟨x, hx⟩
        · exact absurd h1.symm hpk
        · exact ih (by
            simp only [List.mem_map]
            exact ⟨(k, x), hx, rfl⟩)

theorem exists_ok_of_isOk {e a : Type} (x : Except e a)
    (h : exceptIsOk x = true) : ∃ r, x = .ok r := by
  cases x with
  | ok r => exact ⟨r, rfl⟩
  | error err => cases h

theorem pyExtractOne_mem (q : String) (cs : List String) (t : Nat)
    (m : String) (sc : Nat × Nat)
    (h : pyExtractOne q cs t = some (m, sc)) : m ∈ cs := by
  have hspec := extractOneAux_some (fullProcess q).data t cs none m sc h
    (by intro b bs hb; cases hb)
  rcases hspec with ⟨_, hl | ⟨hm, _⟩⟩
  · cases hl
  · exact hm

theorem gcif_isOk (fs : FuzzyStandardizer) (c h : PyVal)
    (hc : c.textOrNone = true) (hh : h.textOrNone = true) :
    exceptIsOk (fs._get_city_info_fuzzy c h) = true := by
  unfold FuzzyStandardizer._get_city_info_fuzzy
  by_cases hct : c.truthy = true
  · simp only [hct, not_true, if_false]
    cases c with
    | vInt n => simp [PyVal.textOrNone] at hc
    | vNone => simp [PyVal.truthy] at hct
    | vStr s =>
        simp only []
        cases fs.loader.get_city_info s with
        | some ci => rfl
        | none =>
          simp only []
          cases pyExtractOne (pyNormalize s) fs.city_names
              fs.city_threshold with
          | none =>
              rw [cityMissTail_eq_none]
              rfl
          | some pr =>
              rcases pr with ⟨m, sc⟩
              simp only []
              cases fs.loader.get_city_info m with
              | none =>
                  rw [cityMissTail_eq_none]
                  rfl
              | some ci =>
                  simp only []
                  by_cases hcond :
                      (h.truthy && decide (ci.country_name ≠ "")) = true
                  · rw [if_pos hcond]
                    cases h with
                    | vInt n => simp [PyVal.textOrNone] at hh
                    | vNone => simp [PyVal.truthy] at hcond
                    | vStr h2 =>
                        simp only []
                        by_cases hov :
                            (pyIn (pyLowerStr h2) (pyLowerStr ci.country_name)
                              || pyIn (pyLowerStr ci.country_name)
                                  (pyLowerStr h2)) = true
                        · rw [if_pos hov]
                          rfl
                        · rw [if_neg hov, cityMissTail_eq_none]
                          rfl
                  · rw [if_neg hcond]
                    rfl
  · simp only [eq_false_of_ne_true hct, Bool.false_eq_true, not_false_eq_true,
      if_true]
    rfl

theorem standardize_country_isOk (fs : FuzzyStandardizer) (v : PyVal)
    (ci : Option FullCityData) (hv : v.textOrNone = true)
    (hwf : fs.country_names = fs.country_mapping.map (·.1)) :
    exceptIsOk (fs._standardize_country v ci) = true := by
  unfold FuzzyStandardizer._standardize_country
  by_cases hvt : v.truthy = true
  · simp only [hvt, if_true]
    cases v with
    | vInt n => simp [PyVal.textOrNone] at hv
    | vNone => simp [PyVal.truthy] at hvt
    | vStr s =>
        simp only []
        by_cases hdir : (truthyOpt (fs.loader.get_country_code s) &&
            truthyOpt (fs.loader.get_country_display s)) = true
        · rw [if_pos hdir]
          rfl
        · rw [if_neg hdir]
          cases hfz : pyExtractOne (pyNormalize s) fs.country_names
              fs.country_threshold with
          | none => rfl
          | some pr =>
              rcases pr with ⟨m, sc⟩
              simp only []
              have hm : m ∈ fs.country_names :=
                pyExtractOne_mem _ _ _ _ _ hfz
              rw [hwf] at hm
              have hsome := dictGet_isSome_of_mem_keys _ _ hm
              cases hdg : dictGet fs.country_mapping m with
              | none => rw [hdg] at hsome; cases hsome
              | some cdata => rfl
  · rw [if_neg hvt]
    rfl

theorem standardize_state_isOk (fs : FuzzyStandardizer) (v : PyVal)
    (ci : Option FullCityData) (hv : v.textOrNone = true)
    (hwf : fs.state_names = fs.state_mapping.map (·.1)) :
    exceptIsOk (fs._standardize_state v ci) = true := by
  unfold FuzzyStandardizer._standardize_state
  by_cases hvt : v.truthy = true
  · simp only [hvt, if_true]
    cases v with
    | vInt n => simp [PyVal.textOrNone] at hv
    | vNone => simp [PyVal.truthy] at hvt
    | vStr s =>
        simp only []
        by_cases hdir : (truthyOpt (fs.loader.get_state_code s) &&
            truthyOpt (fs.loader.get_state_display s)) = true
        · rw [if_pos hdir]
          rfl
        · rw [if_neg hdir]
          cases hfz : pyExtractOne (pyNormalize s) fs.state_names
              fs.state_threshold with
          | none => rfl
          | some pr =>
              rcases pr with ⟨m, sc⟩
              simp only []
              have hm : m ∈ fs.state_names :=
                pyExtractOne_mem _ _ _ _ _ hfz
              rw [hwf] at hm
              have hsome := dictGet_isSome_of_mem_keys _ _ hm
              cases hdg : dictGet fs.state_mapping m with
              | none => rw [hdg] at hsome; cases hsome
              | some sdata => rfl
  · rw [if_neg hvt]
    rfl

theorem addrResolve_isOk (fs : FuzzyStandardizer) (a h : PyVal)
    (ha : a.textOrNone = true) (hh : h.textOrNone = true) :
    exceptIsOk (fs.addrResolve a h) = true := by
  unfold FuzzyStandardizer.addrResolve
  by_cases hat : a.truthy = true
  · simp only [hat, if_true]
    cases a with
    | vInt n => simp [PyVal.textOrNone] at ha
    | vNone => simp [PyVal.truthy] at hat
    | vStr x =>
        simp only []
        cases fs.loader.parse_city_from_address x with
        | some tok => exact gcif_isOk fs (.vStr tok) h rfl hh
        | none => rfl
  · simp only [eq_false_of_ne_true hat, Bool.false_eq_true, if_false]
    rfl

theorem step1_isOk (fs : FuzzyStandardizer) (cd : CustomerData)
    (hall : allTextOrNone cd = true) :
    ∃ r, fs.step1 cd = .ok r := by
  simp only [allTextOrNone, Bool.and_eq_true] at hall
  obtain ⟨⟨⟨hcity, hcountry⟩, hstate⟩, haddr⟩ := hall
  unfold FuzzyStandardizer.step1
  by_cases hct : cd.city.truthy = true
  · rw [if_pos hct]
    obtain ⟨oci, hoci⟩ := exists_ok_of_isOk _
      (gcif_isOk fs cd.city cd.country hcity hcountry)
    rw [hoci]
    cases oci with
    | some ci => exact ⟨_, rfl⟩
    | none =>
        simp only []
        have hsb : ∃ ost, FuzzyStandardizer.getStateByNameV fs.loader
            cd.city = .ok ost := by
          unfold FuzzyStandardizer.getStateByNameV
          cases hcc : cd.city with
          | vInt n =>
              rw [hcc] at hcity
              simp [PyVal.textOrNone] at hcity
          | vNone => exact ⟨none, rfl⟩
          | vStr s =>
              by_cases hse : (PyVal.vStr s).truthy = true
              · rw [if_neg (fun hc => hc hse)]
                exact ⟨_, rfl⟩
              · rw [if_pos hse]
                exact ⟨none, rfl⟩
        obtain ⟨ost, host⟩ := hsb
        rw [host]
        cases ost with
        | some st => exact ⟨_, rfl⟩
        | none =>
            simp only []
            obtain ⟨oci2, hoci2⟩ := exists_ok_of_isOk _
              (addrResolve_isOk fs cd.address cd.country haddr hcountry)
            rw [hoci2]
            cases oci2 with
            | some ci => exact ⟨_, rfl⟩
            | none => exact ⟨_, rfl⟩
  · rw [if_neg hct]
    exact ⟨_, rfl⟩

theorem stages23_isOk (fs : FuzzyStandardizer) (ci : Option FullCityData)
    (cd1 : CustomerData) (hcountry : cd1.country.textOrNone = true)
    (hstate : cd1.state.textOrNone = true)
    (hwfc : fs.country_names = fs.country_mapping.map (·.1))
    (hwfs : fs.state_names = fs.state_mapping.map (·.1)) :
    exceptIsOk (fs.stages23 ci cd1) = true := by
  unfold FuzzyStandardizer.stages23
  obtain ⟨p, hp⟩ := exists_ok_of_isOk _
    (standardize_country_isOk fs cd1.country ci hcountry hwfc)
  rw [hp]
  rcases p with ⟨cc, cdp⟩
  simp only []
  cases hb : (truthyOpt cc && truthyOpt cdp) <;>
    · simp only [hb, Bool.false_eq_true, if_false, if_true]
      obtain ⟨q, hq⟩ := exists_ok_of_isOk _
        (standardize_state_isOk fs _ ci hstate hwfs)
      rw [hq]
      rcases q with ⟨sc, sd⟩
      simp only []
      cases hb2 : (truthyOpt sc && truthyOpt sd) <;> rfl

theorem standardize_isOk (L : FullCitiesDataLoader) (ct st cit : Nat)
    (cd : CustomerData) (hall : allTextOrNone cd = true) :
    exceptIsOk ((FuzzyStandardizer.init L ct st cit).standardize_customer_data
      cd) = true := by
  simp only [allTextOrNone, Bool.and_eq_true] at hall
  obtain ⟨⟨⟨hcity, hcountry⟩, hstate⟩, haddr⟩ := hall
  unfold FuzzyStandardizer.standardize_customer_data
  unfold FuzzyStandardizer.step1
  by_cases hct : cd.city.truthy = true
  · rw [if_pos hct]
    obtain ⟨oci, hoci⟩ := exists_ok_of_isOk _
      (gcif_isOk _ cd.city cd.country hcity hcountry)
    rw [hoci]
    cases oci with
    | some ci =>
        simp only []
        exact stages23_isOk _ (some ci) _ hcountry hstate rfl rfl
    | none =>
        simp only []
        have hsb : ∃ ost, FuzzyStandardizer.getStateByNameV
            (FuzzyStandardizer.init L ct st cit).loader cd.city =
              .ok ost := by
          unfold FuzzyStandardizer.getStateByNameV
          cases hcc : cd.city with
          | vInt n =>
              rw [hcc] at hcity
              simp [PyVal.textOrNone] at hcity
          | vNone => exact ⟨none, rfl⟩
          | vStr str =>
              by_cases hse : (PyVal.vStr str).truthy = true
              · rw [if_neg (fun hc => hc hse)]
                exact ⟨_, rfl⟩
              · rw [if_pos hse]
                exact ⟨none, rfl⟩
        obtain ⟨ost, host⟩ := hsb
        rw [host]
        cases ost with
        | some stt =>
            simp only []
            exact stages23_isOk _ none _ hcountry hstate rfl rfl
        | none =>
            simp only []
            obtain ⟨oci2, hoci2⟩ := exists_ok_of_isOk _
              (addrResolve_isOk _ cd.address cd.country haddr hcountry)
            rw [hoci2]
            cases oci2 with
            | some ci =>
                simp only []
                exact stages23_isOk _ (some ci) _ hcountry hstate rfl rfl
            | none =>
                simp only []
                exact stages23_isOk _ none _ hcountry hstate rfl rfl
  · rw [if_neg hct]
    exact stages23_isOk _ none _ hcountry hstate rfl rfl

/-- Counterexample to claim C7: (i) a truthy non-text city value raises
(the code calls `.lower()` on it); (ii) a whitespace-only city, unlike an
absent one, still triggers the address-extraction fallback, producing a
cityCode; (iii) a whitespace-only country acts as a country hint that
rejects every fuzzy city candidate, changing city resolution relative to
an absent country. -/
theorem standardize_nontext_raises_ws_diverges :
    demoFS.standardize_customer_data
      { city := .vInt 5, country := .vNone, state := .vNone,
        address := .vNone } = .error .attributeError ∧
    geoOut (demoFS.standardize_customer_data
      { city := .vStr " ", country := .vNone, state := .vNone,
        address := .vStr "9 Elm Way, Austin" }) ≠
      geoOut (demoFS.standardize_customer_data
        { city := .vNone, country := .vNone, state := .vNone,
          address := .vStr "9 Elm Way, Austin" }) ∧
    geoOut (demoFS.standardize_customer_data
      { city := .vStr "Rio de Janero", country := .vStr " ",
        state := .vNone, address := .vNone }) ≠
      geoOut (demoFS.standardize_customer_data
        { city := .vStr "Rio de Janero", country := .vNone,
          state := .vNone, address := .vNone }) := by
  refine ⟨by decide, by decide, by decide⟩

/-- Claim C7 (amended): standardization always terminates and, on every
record whose four geographic fields are each text or absent, returns a
record without raising; a truthy non-text value raises.  Empty/falsy
field values are handled exactly as if absent (same six outputs).
Whitespace-only (truthy) text values resolve to nothing but are not
always equivalent to absent: (i) a whitespace-only country still acts as
the fuzzy-city country hint, so equivalence needs an untriggered city
stage; (ii) a whitespace-only city still triggers the address fallback,
so equivalence needs a falsy address; whitespace-only state and address
fields are equivalent to absent unconditionally (state under the usual
no-empty-key/corpus side conditions). -/
theorem standardize_invalid_input_spec :
    (∀ (L : FullCitiesDataLoader) (ct st cit : Nat) (cd : CustomerData),
      allTextOrNone cd = true →
      exceptIsOk ((FuzzyStandardizer.init L ct st cit).standardize_customer_data
        cd) = true) ∧
    (∀ (fs : FuzzyStandardizer) (cd : CustomerData) (v : PyVal),
      v.truthy = false →
      geoOut (fs.standardize_customer_data { cd with city := v }) =
        geoOut (fs.standardize_customer_data { cd with city := .vNone }) ∧
      geoOut (fs.standardize_customer_data { cd with country := v }) =
        geoOut (fs.standardize_customer_data { cd with country := .vNone }) ∧
      geoOut (fs.standardize_customer_data { cd with state := v }) =
        geoOut (fs.standardize_customer_data { cd with state := .vNone }) ∧
      geoOut (fs.standardize_customer_data { cd with address := v }) =
        geoOut (fs.standardize_customer_data
          { cd with address := .vNone })) ∧
    (∀ (fs : FuzzyStandardizer) (cd : CustomerData) (s : String),
      s ≠ "" → s.data.all Char.isWhitespace = true →
      (dictGet fs.loader.country_mappings "" = none →
        0 < fs.country_threshold →
        (∀ n ∈ fs.country_names, (fullProcess n).data ≠ []) →
        cd.city.truthy = false →
        geoOut (fs.standardize_customer_data
            { cd with country := .vStr s }) =
          geoOut (fs.standardize_customer_data
            { cd with country := .vNone })) ∧
      (dictGet fs.loader.state_mappings "" = none →
        0 < fs.state_threshold →
        (∀ n ∈ fs.state_names, (fullProcess n).data ≠ []) →
        geoOut (fs.standardize_customer_data { cd with state := .vStr s }) =
          geoOut (fs.standardize_customer_data
            { cd with state := .vNone })) ∧
      (geoOut (fs.standardize_customer_data { cd with address := .vStr s }) =
        geoOut (fs.standardize_customer_data
          { cd with address := .vNone })) ∧
      (dictGet fs.loader.city_mappings "" = none →
        dictGet fs.loader.state_mappings "" = none →
        (∀ n ∈ fs.city_names, (fullProcess n).data ≠ []) →
        0 < fs.city_threshold →
        cd.address.truthy = false →
        geoOut (fs.standardize_customer_data { cd with city := .vStr s }) =
          geoOut (fs.standardize_customer_data
            { cd with city := .vNone }))) := by
  refine ⟨standardize_isOk, ?_, ?_⟩
  · intro fs cd v hv
    refine ⟨cityFalsy_as_absent fs cd v hv,
      countryMiss_as_absent fs cd v (Or.inl hv) (Or.inl hv),
      stateMiss_as_absent fs cd v (Or.inl hv),
      addressMiss_as_absent fs cd v (Or.inl hv)⟩
  · intro fs cd s hs hws
    refine ⟨?_, ?_, ?_, ?_⟩
    · intro hck hth hcorp hcf
      apply countryMiss_as_absent fs cd (.vStr s) (Or.inr hcf)
      refine Or.inr ⟨s, rfl, ?_, ?_⟩
      · have hdir : fs.loader.get_country_code s = none := by
          unfold FullCitiesDataLoader.get_country_code
          rw [if_neg hs, pyNormalize_ws s hws, hck]
          rfl
        rw [hdir]
        rfl
      · rw [pyNormalize_ws s hws]
        exact extractOne_empty_query _ _ hth hcorp
    · intro hsk hth hcorp
      apply stateMiss_as_absent fs cd (.vStr s)
      refine Or.inr ⟨s, rfl, ?_, ?_⟩
      · have hdir : fs.loader.get_state_code s = none := by
          unfold FullCitiesDataLoader.get_state_code
          rw [if_neg hs, pyNormalize_ws s hws, hsk]
          rfl
        rw [hdir]
        rfl
      · rw [pyNormalize_ws s hws]
        exact extractOne_empty_query _ _ hth hcorp
    · exact addressMiss_as_absent fs cd (.vStr s)
        (Or.inr ⟨s, rfl, parse_ws_none fs.loader s hs hws⟩)
    · intro hck hsk hcorp hth haf
      exact wsCity_as_absent fs cd s hs hws hck hsk hcorp hth haf

/-- Witness for the amended C7 at concrete inputs: a text record
standardizes without raising; an empty-string city behaves as absent; a
whitespace-only country (with the city stage untriggered) behaves as
absent. -/
theorem standardize_invalid_input_spec_witness :
    exceptIsOk (demoFS.standardize_customer_data
      { city := .vStr "Austin", country := .vNone, state := .vNone,
        address := .vNone }) = true ∧
    geoOut (demoFS.standardize_customer_data
      { city := .vStr "", country := .vNone, state := .vNone,
        address := .vNone }) =
      geoOut (demoFS.standardize_customer_data
        { city := .vNone, country := .vNone, state := .vNone,
          address := .vNone }) ∧
    geoOut (demoFS.standardize_customer_data
      { city := .vNone, country := .vStr " ", state := .vNone,
        address := .vNone }) =
      geoOut (demoFS.standardize_customer_data
        { city := .vNone, country := .vNone, state := .vNone,
          address := .vNone }) :=
  ⟨standardize_invalid_input_spec.1 demoLoader 85 80 75
      { city := .vStr "Austin", country := .vNone, state := .vNone,
        address := .vNone } (by decide),
   (standardize_invalid_input_spec.2.1 demoFS
      { city := .vNone, country := .vNone, state := .vNone,
        address := .vNone } (.vStr "") (by decide)).1,
   (standardize_invalid_input_spec.2.2 demoFS
      { city := .vNone, country := .vNone, state := .vNone,
        address := .vNone } " " (by decide) (by decide)).1
     (by decide) (by decide) (by decide) (by decide)⟩

end HailMary
